import Mathlib

/-!
# Win2D effect property boxing: a shallow embedding of `CanvasEffect.h`

The development embeds the property store of `CanvasEffect`
(`winrt/lib/effects/CanvasEffect.h`) and the `PropertyTypeConverter`
specialisations that convert between public values and boxed
`IPropertyValue`s.

Conventions of the embedding.

* `F` is the type of `float` payloads.  Storing and retrieving floats never
  inspects them, so the store is generic in `F`; converters that compute with
  floats ask for the arithmetic they use.
* A C++ function that throws is a function into `Except HResult`.
* A member function of `CanvasEffect` takes the object state and returns its
  outcome together with the state after the call, so that a mutation made
  before a throw would be visible.
* `assert(index < m_properties.size())` is a precondition: the member
  functions take the proof of it as an argument.
-/

namespace Win2D

/-! ## Result codes -/

/-- The `HRESULT` values that the embedded code produces. -/
inductive HResult where
  | S_OK
  | E_INVALIDARG
  | E_BOUNDS
  | TYPE_E_TYPEMISMATCH
  | RO_E_CLOSED
  | D2DERR_CYCLIC_GRAPH
  deriving DecidableEq, Repr

/-! ## Boxed values (`IPropertyValue`) -/

/-- The type tag of a boxed value: what `IPropertyValue::get_Type` tells apart,
with the element count of an array. -/
inductive PropertyType where
  | Single
  | Int32
  | UInt32
  | Boolean
  | SingleArray (count : Nat)
  deriving DecidableEq, Repr

/-- An `IPropertyValue` as the effect code creates them: a scalar `float`,
`int32_t`, `uint32_t` or `boolean`, or an array of `float`. -/
inductive PropertyValue (F : Type) where
  | Single (value : F)
  | Int32 (value : Int)
  | UInt32 (value : Nat)
  | Boolean (value : Bool)
  | SingleArray (value : List F)
  deriving DecidableEq, Repr

/-- The tag of a boxed value. -/
def PropertyValue.type {F : Type} : PropertyValue F → PropertyType
  | .Single _ => .Single
  | .Int32 _ => .Int32
  | .UInt32 _ => .UInt32
  | .Boolean _ => .Boolean
  | .SingleArray value => .SingleArray value.length

/-- `IPropertyValue::GetSingle`: the payload of a `Single`; another kind of
value is a type mismatch. -/
def PropertyValue.GetSingle {F : Type} : PropertyValue F → Except HResult F
  | .Single value => .ok value
  | _ => .error .TYPE_E_TYPEMISMATCH

/-- `IPropertyValue::GetInt32`. -/
def PropertyValue.GetInt32 {F : Type} : PropertyValue F → Except HResult Int
  | .Int32 value => .ok value
  | _ => .error .TYPE_E_TYPEMISMATCH

/-- `IPropertyValue::GetUInt32`. -/
def PropertyValue.GetUInt32 {F : Type} : PropertyValue F → Except HResult Nat
  | .UInt32 value => .ok value
  | _ => .error .TYPE_E_TYPEMISMATCH

/-- `IPropertyValue::GetBoolean`. -/
def PropertyValue.GetBoolean {F : Type} : PropertyValue F → Except HResult Bool
  | .Boolean value => .ok value
  | _ => .error .TYPE_E_TYPEMISMATCH

/-- `IPropertyValue::GetSingleArray`: the elements of a `SingleArray`, whose
number is the size the call reports. -/
def PropertyValue.GetSingleArray {F : Type} : PropertyValue F → Except HResult (List F)
  | .SingleArray value => .ok value
  | _ => .error .TYPE_E_TYPEMISMATCH

/-! ## `PROPERTY_TYPE_ACCESSOR` and `ARRAY_PROPERTY_TYPE_ACCESSOR`

The macros define one overload of `CreateProperty` and `GetValueOfProperty`
per boxed type; the overloads are told apart here by a suffix, the
`WINRT_NAME` argument of the macro. -/

/-- `CreateProperty(factory, float const&)`: `factory->CreateSingle`. -/
def CreateProperty.Single {F : Type} (value : F) : Except HResult (PropertyValue F) :=
  .ok (.Single value)

/-- `GetValueOfProperty(propertyValue, float*)`. -/
def GetValueOfProperty.Single {F : Type} (propertyValue : PropertyValue F) : Except HResult F :=
  propertyValue.GetSingle

/-- `CreateProperty(factory, int32_t const&)`: `factory->CreateInt32`. -/
def CreateProperty.Int32 {F : Type} (value : Int) : Except HResult (PropertyValue F) :=
  .ok (.Int32 value)

/-- `GetValueOfProperty(propertyValue, int32_t*)`. -/
def GetValueOfProperty.Int32 {F : Type} (propertyValue : PropertyValue F) : Except HResult Int :=
  propertyValue.GetInt32

/-- `CreateProperty(factory, uint32_t const&)`: `factory->CreateUInt32`. -/
def CreateProperty.UInt32 {F : Type} (value : Nat) : Except HResult (PropertyValue F) :=
  .ok (.UInt32 value)

/-- `GetValueOfProperty(propertyValue, uint32_t*)`. -/
def GetValueOfProperty.UInt32 {F : Type} (propertyValue : PropertyValue F) : Except HResult Nat :=
  propertyValue.GetUInt32

/-- `CreateProperty(factory, boolean const&)`: `factory->CreateBoolean`. -/
def CreateProperty.Boolean {F : Type} (value : Bool) : Except HResult (PropertyValue F) :=
  .ok (.Boolean value)

/-- `GetValueOfProperty(propertyValue, boolean*)`. -/
def GetValueOfProperty.Boolean {F : Type} (propertyValue : PropertyValue F) : Except HResult Bool :=
  propertyValue.GetBoolean

/-- `CreateProperty(factory, valueCount, float const*)`:
`factory->CreateSingleArray(valueCount, value, ..)`, which copies the first
`valueCount` elements of the buffer `value`. -/
def CreateProperty.SingleArray {F : Type} (valueCount : Nat) (value : List F) :
    Except HResult (PropertyValue F) :=
  .ok (.SingleArray (value.take valueCount))

/-- `GetValueOfProperty(propertyValue, uint32_t* valueCount, float** value)`:
the element count and the elements of the stored array. -/
def GetValueOfProperty.SingleArray {F : Type} (propertyValue : PropertyValue F) :
    Except HResult (Nat × List F) :=
  match propertyValue.GetSingleArray with
  | .error hr => .error hr
  | .ok value => .ok (value.length, value)

/-! ## `PropertyTypeConverter` -/

/-- A specialisation of `PropertyTypeConverter<TBoxed, TPublic>`: its two
static functions.  `Unbox` yields the value it assigns to `*result` as its
last step, or the error it throws before assigning. -/
structure PropertyTypeConverter (F : Type) (TPublic : Type) where
  Box : TPublic → Except HResult (PropertyValue F)
  Unbox : PropertyValue F → Except HResult TPublic

/-- The content of an out-parameter `*result` after a call that assigns it as
its last step: the assigned value, or the previous content when the call threw
before the assignment. -/
def resultAfter {T : Type} (outcome : Except HResult T) (previous : T) : T :=
  match outcome with
  | .ok value => value
  | .error _ => previous

/-- The default `PropertyTypeConverter`, `TBoxed = TPublic = float`. -/
def PropertyTypeConverter.Single {F : Type} : PropertyTypeConverter F F where
  Box := fun value => CreateProperty.Single value
  Unbox := fun propertyValue => GetValueOfProperty.Single propertyValue

/-- The default `PropertyTypeConverter`, `TBoxed = TPublic = int32_t`. -/
def PropertyTypeConverter.Int32 {F : Type} : PropertyTypeConverter F Int where
  Box := fun value => CreateProperty.Int32 value
  Unbox := fun propertyValue => GetValueOfProperty.Int32 propertyValue

/-- The default `PropertyTypeConverter`, `TBoxed = TPublic = uint32_t`. -/
def PropertyTypeConverter.UInt32 {F : Type} : PropertyTypeConverter F Nat where
  Box := fun value => CreateProperty.UInt32 value
  Unbox := fun propertyValue => GetValueOfProperty.UInt32 propertyValue

/-- The default `PropertyTypeConverter`, `TBoxed = TPublic = boolean`. -/
def PropertyTypeConverter.Boolean {F : Type} : PropertyTypeConverter F Bool where
  Box := fun value => CreateProperty.Boolean value
  Unbox := fun propertyValue => GetValueOfProperty.Boolean propertyValue

/-! ## The public types boxed as float arrays

`PropertyTypeConverter<float[N], TPublic>` reads a `TPublic` as `N` floats
(`(float*)&value`) and reads `N` floats as a `TPublic`
(`*reinterpret_cast<TPublic*>(data)`).  The types it accepts are plain structs
of floats, declared outside `CanvasEffect.h`; they are given here with their
fields in declaration order. -/

/-- `Numerics::Vector2`: two floats, `X` then `Y`. -/
structure Vector2 (F : Type) where
  X : F
  Y : F
  deriving DecidableEq, Repr

/-- `Numerics::Vector3`. -/
structure Vector3 (F : Type) where
  X : F
  Y : F
  Z : F
  deriving DecidableEq, Repr

/-- `Numerics::Vector4`. -/
structure Vector4 (F : Type) where
  X : F
  Y : F
  Z : F
  W : F
  deriving DecidableEq, Repr

/-- `Numerics::Matrix3x2`, stored row by row. -/
structure Matrix3x2 (F : Type) where
  M11 : F
  M12 : F
  M21 : F
  M22 : F
  M31 : F
  M32 : F
  deriving DecidableEq, Repr

/-- `Numerics::Matrix4x4`, stored row by row. -/
structure Matrix4x4 (F : Type) where
  M11 : F
  M12 : F
  M13 : F
  M14 : F
  M21 : F
  M22 : F
  M23 : F
  M24 : F
  M31 : F
  M32 : F
  M33 : F
  M34 : F
  M41 : F
  M42 : F
  M43 : F
  M44 : F
  deriving DecidableEq, Repr

/-- `Matrix5x4`: five rows of four floats, stored row by row. -/
structure Matrix5x4 (F : Type) where
  M11 : F
  M12 : F
  M13 : F
  M14 : F
  M21 : F
  M22 : F
  M23 : F
  M24 : F
  M31 : F
  M32 : F
  M33 : F
  M34 : F
  M41 : F
  M42 : F
  M43 : F
  M44 : F
  M51 : F
  M52 : F
  M53 : F
  M54 : F
  deriving DecidableEq, Repr

/-- The memory layout of a struct `T` that is exactly `N` floats
(`static_assert(sizeof(TPublic) == sizeof(float[N]))`): `toFloats` is the view
`(float*)&value` of the struct as an array, `ofFloats` the view
`*reinterpret_cast<T*>(data)` of an array of `N` floats as the struct.  Both
views are of the same memory, so each undoes the other. -/
class FloatLayout (F : Type) (N : outParam Nat) (T : Type) where
  toFloats : T → List F
  ofFloats : (data : List F) → data.length = N → T
  length_toFloats : ∀ value, (toFloats value).length = N
  ofFloats_toFloats : ∀ value h, ofFloats (toFloats value) h = value
  toFloats_ofFloats : ∀ data h, toFloats (ofFloats data h) = data

/-- The layout of `Vector2`: its fields in declaration order. -/
instance Vector2.instFloatLayout {F : Type} : FloatLayout F 2 (Vector2 F) where
  toFloats := fun value => [value.X, value.Y]
  ofFloats := fun data h => ⟨data[0], data[1]⟩
  length_toFloats := fun _ => rfl
  ofFloats_toFloats := fun _ _ => rfl
  toFloats_ofFloats := fun data h => by
    match data, h with
    | [a0, a1], _ => rfl

/-- The layout of `Vector3`: its fields in declaration order. -/
instance Vector3.instFloatLayout {F : Type} : FloatLayout F 3 (Vector3 F) where
  toFloats := fun value => [value.X, value.Y, value.Z]
  ofFloats := fun data h => ⟨data[0], data[1], data[2]⟩
  length_toFloats := fun _ => rfl
  ofFloats_toFloats := fun _ _ => rfl
  toFloats_ofFloats := fun data h => by
    match data, h with
    | [a0, a1, a2], _ => rfl

/-- The layout of `Vector4`: its fields in declaration order. -/
instance Vector4.instFloatLayout {F : Type} : FloatLayout F 4 (Vector4 F) where
  toFloats := fun value => [value.X, value.Y, value.Z, value.W]
  ofFloats := fun data h => ⟨data[0], data[1], data[2], data[3]⟩
  length_toFloats := fun _ => rfl
  ofFloats_toFloats := fun _ _ => rfl
  toFloats_ofFloats := fun data h => by
    match data, h with
    | [a0, a1, a2, a3], _ => rfl

/-- The layout of `Matrix3x2`: its fields in declaration order. -/
instance Matrix3x2.instFloatLayout {F : Type} : FloatLayout F 6 (Matrix3x2 F) where
  toFloats := fun value => [value.M11, value.M12, value.M21, value.M22, value.M31, value.M32]
  ofFloats := fun data h => ⟨data[0], data[1], data[2], data[3], data[4], data[5]⟩
  length_toFloats := fun _ => rfl
  ofFloats_toFloats := fun _ _ => rfl
  toFloats_ofFloats := fun data h => by
    match data, h with
    | [a0, a1, a2, a3, a4, a5], _ => rfl

/-- The layout of `Matrix4x4`: its fields in declaration order. -/
instance Matrix4x4.instFloatLayout {F : Type} : FloatLayout F 16 (Matrix4x4 F) where
  toFloats := fun value => [value.M11, value.M12, value.M13, value.M14, value.M21, value.M22,
      value.M23, value.M24, value.M31, value.M32, value.M33, value.M34, value.M41, value.M42,
      value.M43, value.M44]
  ofFloats := fun data h => ⟨data[0], data[1], data[2], data[3], data[4], data[5], data[6],
      data[7], data[8], data[9], data[10], data[11], data[12], data[13], data[14], data[15]⟩
  length_toFloats := fun _ => rfl
  ofFloats_toFloats := fun _ _ => rfl
  toFloats_ofFloats := fun data h => by
    match data, h with
    | [a0, a1, a2, a3, a4, a5, a6, a7, a8, a9, a10, a11, a12, a13, a14, a15], _ => rfl

/-- The layout of `Matrix5x4`: its fields in declaration order. -/
instance Matrix5x4.instFloatLayout {F : Type} : FloatLayout F 20 (Matrix5x4 F) where
  toFloats := fun value => [value.M11, value.M12, value.M13, value.M14, value.M21, value.M22,
      value.M23, value.M24, value.M31, value.M32, value.M33, value.M34, value.M41, value.M42,
      value.M43, value.M44, value.M51, value.M52, value.M53, value.M54]
  ofFloats := fun data h => ⟨data[0], data[1], data[2], data[3], data[4], data[5], data[6],
      data[7], data[8], data[9], data[10], data[11], data[12], data[13], data[14], data[15],
      data[16], data[17], data[18], data[19]⟩
  length_toFloats := fun _ => rfl
  ofFloats_toFloats := fun _ _ => rfl
  toFloats_ofFloats := fun data h => by
    match data, h with
    | [a0, a1, a2, a3, a4, a5, a6, a7, a8, a9, a10, a11, a12, a13, a14, a15, a16, a17, a18, a19],
        _ => rfl

/-- `Windows::UI::Color`: four bytes, alpha first.  A well-formed colour has
every channel below 256 (`Color.WellFormed`). -/
structure Color where
  A : Nat
  R : Nat
  G : Nat
  B : Nat
  deriving DecidableEq, Repr

/-- Every channel of the colour is a byte. -/
def Color.WellFormed (color : Color) : Prop :=
  color.A < 256 ∧ color.R < 256 ∧ color.G < 256 ∧ color.B < 256

instance Color.instDecidableWellFormed (color : Color) : Decidable color.WellFormed := by
  unfold Color.WellFormed
  exact inferInstance

/-- `Windows::Foundation::Rect`: position and size. -/
structure Rect (F : Type) where
  X : F
  Y : F
  Width : F
  Height : F
  deriving DecidableEq, Repr

/-- `D2D1_RECT_F`: the four edges. -/
structure D2D1_RECT_F (F : Type) where
  left : F
  top : F
  right : F
  bottom : F
  deriving DecidableEq, Repr

/-! ## Numeric casts of enums

A public enum is represented by its numeric value, an `Int` in the range of
its 32-bit signed underlying type. -/

/-- `static_cast<uint32_t>(value)` of an enum value: its numeric value modulo
`2^32`. -/
def static_cast_uint32 (value : Int) : Nat :=
  (value % 2 ^ 32).toNat

/-- `static_cast<TPublic>(value)` of a `uint32_t` to an enum with a 32-bit
signed underlying type: the value with the same 32 bits. -/
def static_cast_enum (value : Nat) : Int :=
  if value % 2 ^ 32 < 2 ^ 31 then ((value % 2 ^ 32 : Nat) : Int)
  else ((value % 2 ^ 32 : Nat) : Int) - 2 ^ 32

/-- The numeric value is in the range of a 32-bit signed integer. -/
def InInt32Range (value : Int) : Prop :=
  -(2 ^ 31) ≤ value ∧ value < 2 ^ 31

instance InInt32Range.instDecidable (value : Int) : Decidable (InInt32Range value) := by
  unfold InInt32Range
  exact inferInstance

/-- `CanvasAlphaMode`, a public enum. -/
abbrev CanvasAlphaMode := Int

/-- `CanvasAlphaMode::Premultiplied`. -/
def CanvasAlphaMode.Premultiplied : CanvasAlphaMode := 0

/-- `CanvasAlphaMode::Straight`. -/
def CanvasAlphaMode.Straight : CanvasAlphaMode := 1

/-- `CanvasAlphaMode::Ignore`. -/
def CanvasAlphaMode.Ignore : CanvasAlphaMode := 2

/-! ## Conversion helpers declared outside `CanvasEffect.h` -/

/-- Modelled from the spec: `ToD2DRect` is not among the sources.  The spec has
the rectangle translated from position and size to left, top, right, bottom. -/
def ToD2DRect {F : Type} [Add F] (rect : Rect F) : D2D1_RECT_F F :=
  { left := rect.X, top := rect.Y, right := rect.X + rect.Width, bottom := rect.Y + rect.Height }

/-- Modelled from the spec: `FromD2DRect` is not among the sources.  The spec
has the rectangle translated from left, top, right, bottom to position and
size. -/
def FromD2DRect {F : Type} [Sub F] (d2dRect : D2D1_RECT_F F) : Rect F :=
  { X := d2dRect.left, Y := d2dRect.top,
    Width := d2dRect.right - d2dRect.left, Height := d2dRect.bottom - d2dRect.top }

/-- `*ReinterpretAs<Numerics::Vector4*>(&d2dRect)`: the four floats of the
rectangle read as a vector. -/
def D2D1_RECT_F.asVector4 {F : Type} (d2dRect : D2D1_RECT_F F) : Vector4 F :=
  { X := d2dRect.left, Y := d2dRect.top, Z := d2dRect.right, W := d2dRect.bottom }

/-- `*ReinterpretAs<D2D1_RECT_F*>(&value)`: the four floats of the vector read
as a rectangle. -/
def Vector4.asD2DRect {F : Type} (value : Vector4 F) : D2D1_RECT_F F :=
  { left := value.X, top := value.Y, right := value.Z, bottom := value.W }

/-- Modelled from the spec: the conversion of a colour channel to a float is
not among the sources.  A byte `v` is the float `v / 255`, so that the opaque
alpha 255 is 1.0. -/
def ToNormalizedFloat {F : Type} [LinearOrderedField F] (v : Nat) : F :=
  (v : F) / 255

/-- Modelled from the spec: the conversion of a float to a colour channel is
not among the sources.  The float is clamped to the interval from 0 to 1,
scaled by 255, rounded to the nearest integer and stored in a byte. -/
def NormalizedToUint8 {F : Type} [LinearOrderedField F] [FloorRing F] (f : F) : Nat :=
  (round (max 0 (min 1 f) * 255)).toNat % 256

/-- Modelled from the spec: `ToVector4(Color)` is not among the sources.  Red,
green, blue and alpha, each as a float. -/
def ToVector4 {F : Type} [LinearOrderedField F] (color : Color) : Vector4 F :=
  { X := ToNormalizedFloat color.R, Y := ToNormalizedFloat color.G,
    Z := ToNormalizedFloat color.B, W := ToNormalizedFloat color.A }

/-- Modelled from the spec: `ToVector3(Color)` is not among the sources.  Red,
green and blue, each as a float; the alpha is left out. -/
def ToVector3 {F : Type} [LinearOrderedField F] (color : Color) : Vector3 F :=
  { X := ToNormalizedFloat color.R, Y := ToNormalizedFloat color.G,
    Z := ToNormalizedFloat color.B }

/-- Modelled from the spec: `ToWindowsColor(Vector4)` is not among the sources.
The inverse of `ToVector4`. -/
def ToWindowsColor.Vector4 {F : Type} [LinearOrderedField F] [FloorRing F]
    (value : Vector4 F) : Color :=
  { A := NormalizedToUint8 value.W, R := NormalizedToUint8 value.X,
    G := NormalizedToUint8 value.Y, B := NormalizedToUint8 value.Z }

/-- Modelled from the spec: `ToWindowsColor(Vector3)` is not among the sources.
The colour of the three channels with the alpha implied to be 1.0. -/
def ToWindowsColor.Vector3 {F : Type} [LinearOrderedField F] [FloorRing F]
    (value : Vector3 F) : Color :=
  ToWindowsColor.Vector4 { X := value.X, Y := value.Y, Z := value.Z, W := 1 }

/-- Modelled from the spec: `XMConvertToDegrees` is not among the sources.  An
angle in radians times 180 over pi, as `fRadians * (180.0f / XM_PI)`, in the
arithmetic of `F`. -/
def XMConvertToDegrees {F : Type} [Mul F] [Div F] [NatCast F] (XM_PI : F) (fRadians : F) : F :=
  fRadians * (((180 : Nat) : F) / XM_PI)

/-- Modelled from the spec: `XMConvertToRadians` is not among the sources.  An
angle in degrees times pi over 180, as `fDegrees * (XM_PI / 180.0f)`, in the
arithmetic of `F`. -/
def XMConvertToRadians {F : Type} [Mul F] [Div F] [NatCast F] (XM_PI : F) (fDegrees : F) : F :=
  fDegrees * (XM_PI / ((180 : Nat) : F))

/-- Modelled from the spec: `ThrowHR` and `ExceptionBoundary` are not among the
sources.  An error thrown inside the boundary is the result code of the call,
and a call that throws nothing returns `S_OK`; the object is left as the body
left it. -/
def ExceptionBoundary {σ : Type} (body : Except HResult Unit × σ) : HResult × σ :=
  match body with
  | (.ok _, state) => (.S_OK, state)
  | (.error hr, state) => (hr, state)

/-- Modelled from the spec: `CheckInPointer` is not among the sources.  A null
pointer (`none`) is rejected with `E_INVALIDARG`. -/
def CheckInPointer {T : Type} (ptr : Option T) : Except HResult Unit :=
  match ptr with
  | none => .error .E_INVALIDARG
  | some _ => .ok ()

/-- Modelled from the spec: `CheckAndClearOutPointer` is not among the sources.
A null pointer (`none`) is rejected with `E_INVALIDARG`. -/
def CheckAndClearOutPointer {T : Type} (ptr : Option T) : Except HResult Unit :=
  match ptr with
  | none => .error .E_INVALIDARG
  | some _ => .ok ()

/-! ## The specialisations of `PropertyTypeConverter` -/

/-- `PropertyTypeConverter<uint32_t, TPublic>` for an enum `TPublic`: enum
values are boxed as unsigned integers. -/
def PropertyTypeConverter.Enum {F : Type} : PropertyTypeConverter F Int where
  Box := fun value => CreateProperty.UInt32 (static_cast_uint32 value)
  Unbox := fun propertyValue =>
    match GetValueOfProperty.UInt32 propertyValue with
    | .error hr => .error hr
    | .ok value => .ok (static_cast_enum value)

/-- `PropertyTypeConverter<float[N], TPublic>`: vectors and matrices are boxed
as float arrays. -/
def PropertyTypeConverter.FloatArray {F : Type} (N : Nat) (TPublic : Type)
    [FloatLayout F N TPublic] : PropertyTypeConverter F TPublic where
  Box := fun value => .ok (.SingleArray ((FloatLayout.toFloats value : List F).take N))
  Unbox := fun propertyValue =>
    match propertyValue.GetSingleArray with
    | .error hr => .error hr
    | .ok value =>
      if h : value.length ≠ N then .error .E_BOUNDS
      else .ok (FloatLayout.ofFloats value (Decidable.of_not_not h))

/-- `PropertyTypeConverter<float[4], Color>`: a colour boxed as a float4, for
properties that include alpha. -/
def PropertyTypeConverter.Color4 {F : Type} [LinearOrderedField F] [FloorRing F] :
    PropertyTypeConverter F Color where
  Box := fun value => (PropertyTypeConverter.FloatArray 4 (Vector4 F)).Box (ToVector4 value)
  Unbox := fun propertyValue =>
    match (PropertyTypeConverter.FloatArray 4 (Vector4 F)).Unbox propertyValue with
    | .error hr => .error hr
    | .ok value => .ok (ToWindowsColor.Vector4 value)

/-- `PropertyTypeConverter<float[3], Color>`: a colour boxed as a float3, for
properties that only use rgb. -/
def PropertyTypeConverter.Color3 {F : Type} [LinearOrderedField F] [FloorRing F] :
    PropertyTypeConverter F Color where
  Box := fun value => (PropertyTypeConverter.FloatArray 3 (Vector3 F)).Box (ToVector3 value)
  Unbox := fun propertyValue =>
    match (PropertyTypeConverter.FloatArray 3 (Vector3 F)).Unbox propertyValue with
    | .error hr => .error hr
    | .ok value => .ok (ToWindowsColor.Vector3 value)

/-- `PropertyTypeConverter<float[4], Rect>`: a rectangle boxed as a float4,
after converting the x/y/w/h format to left/top/right/bottom. -/
def PropertyTypeConverter.Rect {F : Type} [Add F] [Sub F] : PropertyTypeConverter F (Rect F) where
  Box := fun value =>
    (PropertyTypeConverter.FloatArray 4 (Vector4 F)).Box (ToD2DRect value).asVector4
  Unbox := fun propertyValue =>
    match (PropertyTypeConverter.FloatArray 4 (Vector4 F)).Unbox propertyValue with
    | .error hr => .error hr
    | .ok value => .ok (FromD2DRect value.asD2DRect)

/-- `PropertyTypeConverter<ConvertAlphaMode, CanvasAlphaMode>`.  The helpers
`ToD2DAlphaMode` and `FromD2DAlphaMode` are declared outside `CanvasEffect.h`
and are parameters here; either may throw. -/
def PropertyTypeConverter.ConvertAlphaMode {F : Type}
    (ToD2DAlphaMode : CanvasAlphaMode → Except HResult Int)
    (FromD2DAlphaMode : Int → Except HResult CanvasAlphaMode) :
    PropertyTypeConverter F CanvasAlphaMode where
  Box := fun value =>
    if value = CanvasAlphaMode.Ignore then .error .E_INVALIDARG
    else
      match ToD2DAlphaMode value with
      | .error hr => .error hr
      | .ok d2dValue => CreateProperty.UInt32 (static_cast_uint32 d2dValue)
  Unbox := fun propertyValue =>
    match GetValueOfProperty.UInt32 propertyValue with
    | .error hr => .error hr
    | .ok value => FromD2DAlphaMode (static_cast_enum value)

/-- `PropertyTypeConverter<ConvertRadiansToDegrees, float>`: angles are exposed
in radians and stored in degrees.  `XM_PI` is the constant of that name. -/
def PropertyTypeConverter.ConvertRadiansToDegrees {F : Type} [Mul F] [Div F] [NatCast F]
    (XM_PI : F) : PropertyTypeConverter F F where
  Box := fun value => CreateProperty.Single (XMConvertToDegrees XM_PI value)
  Unbox := fun propertyValue =>
    match GetValueOfProperty.Single propertyValue with
    | .error hr => .error hr
    | .ok degrees => .ok (XMConvertToRadians XM_PI degrees)

/-- `Unbox(Box(x))`: the public value boxed and unboxed again. -/
def PropertyTypeConverter.unboxBox {F TPublic : Type} (converter : PropertyTypeConverter F TPublic)
    (value : TPublic) : Except HResult TPublic :=
  match converter.Box value with
  | .error hr => .error hr
  | .ok propertyValue => converter.Unbox propertyValue

/-- `Box(Unbox(p))`: the boxed value unboxed and boxed again. -/
def PropertyTypeConverter.boxUnbox {F TPublic : Type} (converter : PropertyTypeConverter F TPublic)
    (propertyValue : PropertyValue F) : Except HResult (PropertyValue F) :=
  match converter.Unbox propertyValue with
  | .error hr => .error hr
  | .ok value => converter.Box value

/-! ## `CanvasEffect` -/

/-- Modelled from the spec: the class `Vector<IGraphicsEffectSource*>` behind
`m_sources` is not among the sources.  It is the Source List of the spec: an
ordered sequence of optional source references, each the handle of an effect or
of an image, whose length is either fixed or growable. -/
structure SourceList where
  sources : List (Option Nat)
  isSourcesSizeFixed : Bool
  deriving DecidableEq, Repr

/-- Modelled from the spec: the source list operation behind
`CanvasEffect::SetSource` is not among the sources.  On a fixed-size list of
`n` entries an index `i >= n` is out of bounds.  On a variable-size list the
index `n` grows the list by one and an index above `n` is out of bounds.  An
index below `n` overwrites the entry; a null reference clears it without
shrinking the list.  A reference to the owning effect is accepted here: the
spec has the cycle rejected when the effect is realized. -/
def SourceList.SetSource (list : SourceList) (i : Nat) (ref : Option Nat) :
    Except HResult SourceList :=
  if list.isSourcesSizeFixed then
    if list.sources.length ≤ i then .error .E_BOUNDS
    else .ok { list with sources := list.sources.set i ref }
  else if i = list.sources.length then .ok { list with sources := list.sources ++ [ref] }
  else if list.sources.length < i then .error .E_BOUNDS
  else .ok { list with sources := list.sources.set i ref }

/-- Modelled from the spec: `GetSourceCount`, the number of entries. -/
def SourceList.GetCount (list : SourceList) : Nat :=
  list.sources.length

/-- The data members of `CanvasEffect`.  COM objects are named by a handle;
`m_properties` holds the boxed values themselves. -/
structure CanvasEffect (F : Type) where
  m_resource : Option Nat
  m_closed : Bool
  m_effectId : Nat
  m_properties : List (PropertyValue F)
  m_propertiesChanged : Bool
  m_sources : SourceList
  m_previousDeviceIdentity : Option Nat
  m_previousSourceRealizationIds : List Nat
  m_realizationId : Nat
  m_dpiCompensators : List (Option Nat)
  m_insideGetImage : Bool
  m_name : String
  deriving DecidableEq, Repr

/-- `CanvasEffect::SetBoxedProperty<TBoxed, TPublic>(index, value)`. -/
def CanvasEffect.SetBoxedProperty {F TPublic : Type} (effect : CanvasEffect F)
    (converter : PropertyTypeConverter F TPublic) (index : Nat)
    (_assert : index < effect.m_properties.length) (value : TPublic) :
    Except HResult Unit × CanvasEffect F :=
  match converter.Box value with
  | .error hr => (.error hr, effect)
  | .ok boxed =>
    (.ok (), { effect with
      m_properties := effect.m_properties.set index boxed
      m_propertiesChanged := true })

/-- `CanvasEffect::GetBoxedProperty<TBoxed, TPublic>(index, value)`.  The
pointer `value` is `none` when null; the outcome holds what is assigned to
`*value`. -/
def CanvasEffect.GetBoxedProperty {F TPublic : Type} (effect : CanvasEffect F)
    (converter : PropertyTypeConverter F TPublic) (index : Nat)
    (assert : index < effect.m_properties.length) (value : Option TPublic) :
    Except HResult TPublic × CanvasEffect F :=
  match CheckInPointer value with
  | .error hr => (.error hr, effect)
  | .ok _ => (converter.Unbox (effect.m_properties.get ⟨index, assert⟩), effect)

/-- `CanvasEffect::SetArrayProperty<float>(index, valueCount, value)`. -/
def CanvasEffect.SetArrayProperty {F : Type} (effect : CanvasEffect F) (index : Nat)
    (_assert : index < effect.m_properties.length) (valueCount : Nat) (value : List F) :
    Except HResult Unit × CanvasEffect F :=
  match CreateProperty.SingleArray valueCount value with
  | .error hr => (.error hr, effect)
  | .ok boxed =>
    (.ok (), { effect with
      m_properties := effect.m_properties.set index boxed
      m_propertiesChanged := true })

/-- `CanvasEffect::SetArrayProperty<float>(index, std::initializer_list)`. -/
def CanvasEffect.SetArrayPropertyList {F : Type} (effect : CanvasEffect F) (index : Nat)
    (assert : index < effect.m_properties.length) (value : List F) :
    Except HResult Unit × CanvasEffect F :=
  effect.SetArrayProperty index assert value.length value

/-- `CanvasEffect::GetArrayProperty<float>(index, valueCount, value)`.  The
pointers are `none` when null; the outcome holds what is assigned to
`*valueCount` and `*value`. -/
def CanvasEffect.GetArrayProperty {F : Type} (effect : CanvasEffect F) (index : Nat)
    (assert : index < effect.m_properties.length) (valueCount : Option Nat)
    (value : Option (List F)) : Except HResult (Nat × List F) × CanvasEffect F :=
  match CheckInPointer valueCount with
  | .error hr => (.error hr, effect)
  | .ok _ =>
    match CheckAndClearOutPointer value with
    | .error hr => (.error hr, effect)
    | .ok _ => (GetValueOfProperty.SingleArray (effect.m_properties.get ⟨index, assert⟩), effect)

/-! ## The macros that implement the property accessors of the effect classes -/

/-- `IMPLEMENT_EFFECT_PROPERTY`: the body of `CLASS::put_PROPERTY(value)`. -/
def IMPLEMENT_EFFECT_PROPERTY.put {F TPublic : Type} (effect : CanvasEffect F)
    (converter : PropertyTypeConverter F TPublic) (INDEX : Nat)
    (assert : INDEX < effect.m_properties.length) (value : TPublic) :
    HResult × CanvasEffect F :=
  ExceptionBoundary (effect.SetBoxedProperty converter INDEX assert value)

/-- `IMPLEMENT_EFFECT_PROPERTY_WITH_VALIDATION`: the body of
`CLASS::put_PROPERTY(value)`.  `VALIDATOR` is the macro argument, an expression
in `value`. -/
def IMPLEMENT_EFFECT_PROPERTY_WITH_VALIDATION.put {F TPublic : Type} (effect : CanvasEffect F)
    (converter : PropertyTypeConverter F TPublic) (INDEX : Nat) (VALIDATOR : TPublic → Bool)
    (assert : INDEX < effect.m_properties.length) (value : TPublic) :
    HResult × CanvasEffect F :=
  if !(VALIDATOR value) then (.E_INVALIDARG, effect)
  else ExceptionBoundary (effect.SetBoxedProperty converter INDEX assert value)

/-- `IMPLEMENT_EFFECT_ARRAY_PROPERTY`: the body of
`CLASS::put_PROPERTY(valueCount, valueElements)`. -/
def IMPLEMENT_EFFECT_ARRAY_PROPERTY.put {F : Type} (effect : CanvasEffect F) (INDEX : Nat)
    (assert : INDEX < effect.m_properties.length) (valueCount : Nat) (valueElements : List F) :
    HResult × CanvasEffect F :=
  ExceptionBoundary (effect.SetArrayProperty INDEX assert valueCount valueElements)

/-! ## Construction and sources -/

/-- Modelled from the spec: the body of the constructor `CanvasEffect(effect,
effectId, propertiesSize, sourcesSize, isSourcesSizeFixed)` is not among the
sources.  The effect starts open and unrealized, with `sourcesSize` empty
source entries; `properties` holds the default values of its `propertiesSize`
properties, which have not been pushed to a native instance. -/
def CanvasEffect.create {F : Type} (effect : Option Nat) (effectId : Nat)
    (properties : List (PropertyValue F)) (sourcesSize : Nat) (isSourcesSizeFixed : Bool) :
    CanvasEffect F :=
  { m_resource := effect
    m_closed := false
    m_effectId := effectId
    m_properties := properties
    m_propertiesChanged := true
    m_sources :=
      { sources := List.replicate sourcesSize none, isSourcesSizeFixed := isSourcesSizeFixed }
    m_previousDeviceIdentity := none
    m_previousSourceRealizationIds := List.replicate sourcesSize 0
    m_realizationId := 0
    m_dpiCompensators := List.replicate sourcesSize none
    m_insideGetImage := false
    m_name := "" }

/-- Modelled from the spec: the body of `CanvasEffect::SetSource(index, source)`
is not among the sources.  A closed effect fails with a disposed error; an
index that the source list rejects fails with its error and leaves the effect
as it was; otherwise the source list is updated. -/
def CanvasEffect.SetSource {F : Type} (effect : CanvasEffect F) (index : Nat)
    (source : Option Nat) : HResult × CanvasEffect F :=
  if effect.m_closed then (.RO_E_CLOSED, effect)
  else
    match effect.m_sources.SetSource index source with
    | .error hr => (hr, effect)
    | .ok sources => (.S_OK, { effect with m_sources := sources })

/-- `IMPLEMENT_EFFECT_SOURCE_PROPERTY`: the body of `CLASS::put_SOURCE_NAME(source)`. -/
def IMPLEMENT_EFFECT_SOURCE_PROPERTY.put {F : Type} (effect : CanvasEffect F)
    (SOURCE_INDEX : Nat) (source : Option Nat) : HResult × CanvasEffect F :=
  effect.SetSource SOURCE_INDEX source

/-- `LuminanceToAlphaEffect::LuminanceToAlphaEffect(effect)`: a `CanvasEffect`
with no property and one source, of fixed size.  `EffectId` is the class
identifier that `EffectId()` returns. -/
def LuminanceToAlphaEffect.create {F : Type} (EffectId : Nat)
    (effect : Option Nat) : CanvasEffect F :=
  CanvasEffect.create effect EffectId [] 1 true

/-- `LuminanceToAlphaEffect::put_Source(source)`, generated by
`IMPLEMENT_EFFECT_SOURCE_PROPERTY(LuminanceToAlphaEffect, Source, 0)`. -/
def LuminanceToAlphaEffect.put_Source {F : Type} (effect : CanvasEffect F)
    (source : Option Nat) : HResult × CanvasEffect F :=
  IMPLEMENT_EFFECT_SOURCE_PROPERTY.put effect 0 source

/-! ## Realization -/

/-- Modelled from the spec: `RealizedEffectNode` is not among the sources.  The
result of realizing a node: the handle of the native image and the generation
id of the realization. -/
structure RealizedEffectNode where
  image : Nat
  realizationId : Nat
  deriving DecidableEq, Repr

/-- A call that a realization makes on the rendering backend: create the
native effect on a device, bind a source input, push a property value. -/
inductive D2DCall (F : Type) where
  | CreateEffect (deviceIdentity : Nat) (effectId : Nat)
  | SetInput (index : Nat) (image : Nat)
  | SetValue (index : Nat) (value : PropertyValue F)
  deriving DecidableEq, Repr

/-- The outcome of `GetRealizedEffectNode`: what it returns or throws, the
effect after the call and the calls it made on the backend, in order. -/
structure Realization (F : Type) where
  result : Except HResult RealizedEffectNode
  effect : CanvasEffect F
  calls : List (D2DCall F)

/-- Modelled from the spec: the body of `CanvasEffect::SetD2DInputs` is not
among the sources.  Every source input of the native instance is rebound from
the freshly realized source images. -/
def CanvasEffect.SetD2DInputs {F : Type} (sources : List RealizedEffectNode) : List (D2DCall F) :=
  sources.enum.map fun entry => .SetInput entry.1 entry.2.image

/-- Modelled from the spec: the body of `CanvasEffect::SetD2DProperties` is not
among the sources.  Every property of the store is pushed into the native
instance, not only the changed ones. -/
def CanvasEffect.SetD2DProperties {F : Type} (effect : CanvasEffect F) : List (D2DCall F) :=
  effect.m_properties.enum.map fun entry => .SetValue entry.1 entry.2

/-- Modelled from the spec: the state `Unrealized` that a failed realization
resets the node to: nothing is cached and no realization is in progress. -/
def CanvasEffect.unrealized {F : Type} (effect : CanvasEffect F) : CanvasEffect F :=
  { effect with m_resource := none, m_previousDeviceIdentity := none, m_insideGetImage := false }

/-- Modelled from the spec: the native instance that can be reused on the
device, the cached one when the device identity is unchanged. -/
def CanvasEffect.cachedResource {F : Type} (effect : CanvasEffect F) (deviceIdentity : Nat) :
    Option Nat :=
  if effect.m_previousDeviceIdentity = some deviceIdentity then effect.m_resource else none

/-- Modelled from the spec: steps 5 to 7 of the realization.  The sources are
rebound and every property is pushed on the native instance `resource`, after
the calls `created` that made it; the device identity and the generation ids
of the sources are recorded, the properties-changed flag is cleared and the
generation id, a `uint64_t`, is bumped. -/
def CanvasEffect.rebuild {F : Type} (effect : CanvasEffect F) (deviceIdentity : Nat)
    (sources : List RealizedEffectNode) (resource : Nat) (created : List (D2DCall F)) :
    Realization F :=
  { result := .ok { image := resource, realizationId := (effect.m_realizationId + 1) % 2 ^ 64 }
    effect := { effect with
      m_resource := some resource
      m_previousDeviceIdentity := some deviceIdentity
      m_previousSourceRealizationIds := sources.map RealizedEffectNode.realizationId
      m_propertiesChanged := false
      m_realizationId := (effect.m_realizationId + 1) % 2 ^ 64
      m_insideGetImage := false }
    calls := created ++ CanvasEffect.SetD2DInputs sources ++ effect.SetD2DProperties }

/-- Modelled from the spec: the body of `CanvasEffect::GetRealizedEffectNode` is
not among the sources; this is the realization of the spec for one node.

* `sources` is the outcome of step 3, the realization of every source of the
  node against the same device (with the DPI compensation stage in place where
  one is needed): the realized sources in order, or the error of the first
  that fails.  `created` is what the backend answers if asked to create the
  native effect: its handle or an error.
* A closed effect fails with a disposed error.  An effect that is being
  realized (`m_insideGetImage`) fails with a cycle error.  The flag is set
  while the sources are realized and is cleared on every exit.
* When the device identity is unchanged, every source generation id is
  unchanged and the properties-changed flag is false, the cached native
  instance is reused: nothing is rebuilt or pushed and the generation id
  stays.  Otherwise a native instance is created if the device changed, and
  the node is rebuilt (`CanvasEffect.rebuild`).
* A failure resets the node to `Unrealized`. -/
def CanvasEffect.GetRealizedEffectNode {F : Type} (effect : CanvasEffect F) (deviceIdentity : Nat)
    (sources : Except HResult (List RealizedEffectNode)) (created : Except HResult Nat) :
    Realization F :=
  if effect.m_closed then { result := .error .RO_E_CLOSED, effect := effect, calls := [] }
  else if effect.m_insideGetImage then
    { result := .error .D2DERR_CYCLIC_GRAPH, effect := effect, calls := [] }
  else
    match sources with
    | .error hr => { result := .error hr, effect := effect.unrealized, calls := [] }
    | .ok realized =>
      match effect.cachedResource deviceIdentity with
      | some resource =>
        if realized.map RealizedEffectNode.realizationId = effect.m_previousSourceRealizationIds
            ∧ effect.m_propertiesChanged = false then
          { result := .ok { image := resource, realizationId := effect.m_realizationId }
            effect := effect
            calls := [] }
        else effect.rebuild deviceIdentity realized resource []
      | none =>
        match created with
        | .error hr =>
          { result := .error hr
            effect := effect.unrealized
            calls := [.CreateEffect deviceIdentity effect.m_effectId] }
        | .ok resource =>
          effect.rebuild deviceIdentity realized resource
            [.CreateEffect deviceIdentity effect.m_effectId]

/-- Every value that `converter` boxes successfully is boxed with the tag
`type`. -/
def PropertyTypeConverter.BoxesAs {F TPublic : Type} (converter : PropertyTypeConverter F TPublic)
    (type : PropertyType) : Prop :=
  ∀ (value : TPublic) (boxed : PropertyValue F), converter.Box value = .ok boxed → boxed.type = type

/-! ## Single-precision floats

The `float` of the code is an IEEE 754 binary32 number.  `Binary32` has the
finite ones, with multiplication and division rounded to the nearest
representable number, ties to even.  The exponent is not bounded: overflow to
infinity, subnormal numbers and NaN are outside the model, which agrees with
binary32 arithmetic wherever operands and results are normal numbers. -/

/-- A finite binary32 number, `significand * 2 ^ exponent` with the sign
`negative`.  A number other than zero has its significand from `2 ^ 23` up to
`2 ^ 24 - 1`; zero has significand 0 and exponent 0. -/
structure Binary32 where
  negative : Bool
  significand : Nat
  exponent : Int
  deriving DecidableEq, Repr

/-- The number of binary digits of `n`, for `n` not above `2 ^ fuel - 1`. -/
def Binary32.bitLength : Nat → Nat → Nat
  | 0, _ => 0
  | fuel + 1, n => if n = 0 then 0 else Binary32.bitLength fuel (n / 2) + 1

/-- The binary32 number nearest to `n * 2 ^ e`, with the sign `negative`: the
24 leading binary digits of `n`, rounded on the digits dropped, ties to even. -/
def Binary32.round (negative : Bool) (n : Nat) (e : Int) : Binary32 :=
  if n = 0 then { negative := false, significand := 0, exponent := 0 }
  else
    let bits := Binary32.bitLength n n
    if bits ≤ 24 then
      { negative := negative
        significand := n * 2 ^ (24 - bits)
        exponent := e - ((24 - bits : Nat) : Int) }
    else
      let shift := bits - 24
      let q := n / 2 ^ shift
      let r := n % 2 ^ shift
      let half := 2 ^ (shift - 1)
      let rounded := if half < r ∨ (r = half ∧ q % 2 = 1) then q + 1 else q
      if rounded = 2 ^ 24 then
        { negative := negative, significand := 2 ^ 23, exponent := e + shift + 1 }
      else
        { negative := negative, significand := rounded, exponent := e + shift }

/-- The product of two binary32 numbers: the exact product, rounded. -/
instance Binary32.instMul : Mul Binary32 where
  mul x y :=
    Binary32.round (x.negative != y.negative) (x.significand * y.significand)
      (x.exponent + y.exponent)

/-- The quotient of two binary32 numbers: the exact quotient, rounded.  The
quotient of the significands is taken to 26 binary places and a last digit
records whether anything is left, which is enough to round it to 24 digits.
Division by zero is outside the model and yields zero. -/
instance Binary32.instDiv : Div Binary32 where
  div x y :=
    if y.significand = 0 then { negative := false, significand := 0, exponent := 0 }
    else
      let q := x.significand * 2 ^ 26 / y.significand
      let sticky := if x.significand * 2 ^ 26 % y.significand = 0 then 0 else 1
      Binary32.round (x.negative != y.negative) (2 * q + sticky) (x.exponent - y.exponent - 27)

/-- The binary32 number of an integer literal such as `180.0f`. -/
instance Binary32.instNatCast : NatCast Binary32 where
  natCast n := Binary32.round false n 0

/-- The constant `XM_PI = 3.141592654f`: the binary32 number `0x40490FDB`,
`13176795 * 2 ^ (-22)`. -/
def Binary32.XM_PI : Binary32 :=
  { negative := false, significand := 13176795, exponent := -22 }

/-! ## Concrete inputs used to evaluate the definitions -/

/-- A mapping from `CanvasAlphaMode` to the Direct2D alpha modes, used as the
parameter of the alpha-mode converter at concrete inputs. -/
def exampleToD2DAlphaMode (value : CanvasAlphaMode) : Except HResult Int :=
  if value = CanvasAlphaMode.Premultiplied then .ok 1
  else if value = CanvasAlphaMode.Straight then .ok 2
  else if value = CanvasAlphaMode.Ignore then .ok 3
  else .error .E_INVALIDARG

/-- The inverse mapping of `exampleToD2DAlphaMode`. -/
def exampleFromD2DAlphaMode (value : Int) : Except HResult CanvasAlphaMode :=
  if value = 1 then .ok CanvasAlphaMode.Premultiplied
  else if value = 2 then .ok CanvasAlphaMode.Straight
  else if value = 3 then .ok CanvasAlphaMode.Ignore
  else .error .E_INVALIDARG

/-- An effect with three properties: a float array of three elements, a float
and an unsigned integer; nothing has been written since the last realization. -/
def exampleEffect : CanvasEffect ℚ :=
  { m_resource := none
    m_closed := false
    m_effectId := 7
    m_properties := [.SingleArray [1, 2, 3], .Single 5, .UInt32 1]
    m_propertiesChanged := false
    m_sources := { sources := [none], isSourcesSizeFixed := true }
    m_previousDeviceIdentity := none
    m_previousSourceRealizationIds := [0]
    m_realizationId := 0
    m_dpiCompensators := [none]
    m_insideGetImage := false
    m_name := "" }

/-- The effect `exampleEffect` with a pending property change. -/
def exampleDirtyEffect : CanvasEffect ℚ :=
  { exampleEffect with m_propertiesChanged := true }

/-! ## Theorems -/

/-- C1: `SetBoxedProperty` with the `ConvertAlphaMode` converter and the value
`CanvasAlphaMode::Ignore` fails with `E_INVALIDARG` at every valid index of
every effect, and the effect after the call is the effect before it: every
stored value and the properties-changed flag are untouched. -/
theorem SetBoxedProperty_ConvertAlphaMode_Ignore {F : Type}
    (ToD2DAlphaMode : CanvasAlphaMode → Except HResult Int)
    (FromD2DAlphaMode : Int → Except HResult CanvasAlphaMode)
    (effect : CanvasEffect F) (index : Nat) (h : index < effect.m_properties.length) :
    (effect.SetBoxedProperty (PropertyTypeConverter.ConvertAlphaMode ToD2DAlphaMode FromD2DAlphaMode)
        index h CanvasAlphaMode.Ignore).1 = .error .E_INVALIDARG
    ∧ (effect.SetBoxedProperty (PropertyTypeConverter.ConvertAlphaMode ToD2DAlphaMode FromD2DAlphaMode)
        index h CanvasAlphaMode.Ignore).2 = effect
    ∧ IMPLEMENT_EFFECT_PROPERTY.put effect
        (PropertyTypeConverter.ConvertAlphaMode ToD2DAlphaMode FromD2DAlphaMode)
        index h CanvasAlphaMode.Ignore = (.E_INVALIDARG, effect) := by
  simp [IMPLEMENT_EFFECT_PROPERTY.put, CanvasEffect.SetBoxedProperty,
    PropertyTypeConverter.ConvertAlphaMode, ExceptionBoundary]

/-- The statement of C1 at the effect `exampleEffect` and its index 2. -/
theorem SetBoxedProperty_ConvertAlphaMode_Ignore_witness :
    2 < exampleEffect.m_properties.length
    ∧ (exampleEffect.SetBoxedProperty
        (PropertyTypeConverter.ConvertAlphaMode exampleToD2DAlphaMode exampleFromD2DAlphaMode)
        2 (by decide) CanvasAlphaMode.Ignore).1 = .error .E_INVALIDARG
    ∧ (exampleEffect.SetBoxedProperty
        (PropertyTypeConverter.ConvertAlphaMode exampleToD2DAlphaMode exampleFromD2DAlphaMode)
        2 (by decide) CanvasAlphaMode.Ignore).2 = exampleEffect :=
  ⟨by decide,
   (SetBoxedProperty_ConvertAlphaMode_Ignore exampleToD2DAlphaMode exampleFromD2DAlphaMode
      exampleEffect 2 (by decide)).1,
   (SetBoxedProperty_ConvertAlphaMode_Ignore exampleToD2DAlphaMode exampleFromD2DAlphaMode
      exampleEffect 2 (by decide)).2.1⟩

/-- C2: a setter generated by `IMPLEMENT_EFFECT_PROPERTY_WITH_VALIDATION`
returns `E_INVALIDARG` and leaves the effect as it was when the validator is
false for the value, and does what the setter generated by
`IMPLEMENT_EFFECT_PROPERTY` does, with the same index and converter, when the
validator is true. -/
theorem put_with_validation {F TPublic : Type} (effect : CanvasEffect F)
    (converter : PropertyTypeConverter F TPublic) (INDEX : Nat) (VALIDATOR : TPublic → Bool)
    (h : INDEX < effect.m_properties.length) (value : TPublic) :
    (VALIDATOR value = false →
      IMPLEMENT_EFFECT_PROPERTY_WITH_VALIDATION.put effect converter INDEX VALIDATOR h value
        = (.E_INVALIDARG, effect))
    ∧ (VALIDATOR value = true →
      IMPLEMENT_EFFECT_PROPERTY_WITH_VALIDATION.put effect converter INDEX VALIDATOR h value
        = IMPLEMENT_EFFECT_PROPERTY.put effect converter INDEX h value) := by
  constructor
  · intro hv
    simp [IMPLEMENT_EFFECT_PROPERTY_WITH_VALIDATION.put, hv]
  · intro hv
    simp [IMPLEMENT_EFFECT_PROPERTY_WITH_VALIDATION.put, IMPLEMENT_EFFECT_PROPERTY.put, hv]

/-- The statement of C2 at `exampleEffect`, index 1, the float converter and a
validator that accepts the floats from 0 to 1: the value 2 is rejected and the
value 1/2 is written. -/
theorem put_with_validation_witness :
    1 < exampleEffect.m_properties.length
    ∧ IMPLEMENT_EFFECT_PROPERTY_WITH_VALIDATION.put exampleEffect PropertyTypeConverter.Single 1
        (fun value : ℚ => decide (0 ≤ value) && decide (value ≤ 1)) (by decide) 2
        = (.E_INVALIDARG, exampleEffect)
    ∧ IMPLEMENT_EFFECT_PROPERTY_WITH_VALIDATION.put exampleEffect PropertyTypeConverter.Single 1
        (fun value : ℚ => decide (0 ≤ value) && decide (value ≤ 1)) (by decide) (1 / 2)
        = IMPLEMENT_EFFECT_PROPERTY.put exampleEffect PropertyTypeConverter.Single 1
            (by decide) (1 / 2) :=
  ⟨by decide,
   (put_with_validation exampleEffect PropertyTypeConverter.Single 1
      (fun value : ℚ => decide (0 ≤ value) && decide (value ≤ 1)) (by decide) 2).1 (by decide),
   (put_with_validation exampleEffect PropertyTypeConverter.Single 1
      (fun value : ℚ => decide (0 ≤ value) && decide (value ≤ 1)) (by decide) (1 / 2)).2
      (by norm_num)⟩

/-- C3: for every `N`, every struct laid out as `N` floats and every stored
float array, `Unbox` through the `float[N]` converter throws `E_BOUNDS` exactly
when the length of the array is not `N`.  When it throws, the caller's result
keeps its previous content; when the length is `N` it succeeds and the floats
of the result are the stored elements in order. -/
theorem FloatArray_Unbox_bounds {F T : Type} {N : Nat} [FloatLayout F N T]
    (data : List F) (previous : T) :
    ((PropertyTypeConverter.FloatArray N T).Unbox (.SingleArray data) = .error .E_BOUNDS
        ↔ data.length ≠ N)
    ∧ (data.length ≠ N →
        resultAfter ((PropertyTypeConverter.FloatArray N T).Unbox (.SingleArray data)) previous
          = previous)
    ∧ (data.length = N →
        ∃ result : T,
          (PropertyTypeConverter.FloatArray N T).Unbox (.SingleArray data) = .ok result
          ∧ resultAfter ((PropertyTypeConverter.FloatArray N T).Unbox (.SingleArray data)) previous
              = result
          ∧ (FloatLayout.toFloats result : List F) = data) := by
  by_cases hlen : data.length = N
  · refine ⟨?_, ?_, ?_⟩
    · simp [PropertyTypeConverter.FloatArray, PropertyValue.GetSingleArray, hlen]
    · intro hne
      exact absurd hlen hne
    · intro _
      refine ⟨FloatLayout.ofFloats data hlen, ?_, ?_, FloatLayout.toFloats_ofFloats data hlen⟩
      · simp [PropertyTypeConverter.FloatArray, PropertyValue.GetSingleArray, hlen]
      · simp [PropertyTypeConverter.FloatArray, PropertyValue.GetSingleArray, hlen, resultAfter]
  · refine ⟨?_, ?_, ?_⟩
    · simp [PropertyTypeConverter.FloatArray, PropertyValue.GetSingleArray, hlen]
    · intro _
      simp [PropertyTypeConverter.FloatArray, PropertyValue.GetSingleArray, hlen, resultAfter]
    · intro heq
      exact absurd heq hlen

/-! ### Helper lemmas on the casts and on the float-array converter -/

theorem static_cast_uint32_lt (e : Int) : static_cast_uint32 e < 2 ^ 32 := by
  unfold static_cast_uint32
  omega

theorem static_cast_uint32_of_nonneg (e : Int) (h0 : 0 ≤ e) (h1 : e < 2 ^ 31) :
    (static_cast_uint32 e : Int) = e := by
  unfold static_cast_uint32
  omega

theorem static_cast_enum_uint32 (e : Int) (h : InInt32Range e) :
    static_cast_enum (static_cast_uint32 e) = e := by
  unfold InInt32Range at h
  unfold static_cast_enum static_cast_uint32
  split <;> omega

theorem static_cast_uint32_enum (u : Nat) (h : u < 2 ^ 32) :
    static_cast_uint32 (static_cast_enum u) = u := by
  unfold static_cast_enum static_cast_uint32
  split <;> omega

theorem FloatArray_Box_eq (F : Type) {T : Type} {N : Nat} [FloatLayout F N T] (x : T) :
    (PropertyTypeConverter.FloatArray N T).Box x
      = .ok (.SingleArray (FloatLayout.toFloats x : List F)) := by
  have h : (FloatLayout.toFloats x : List F).length = N := FloatLayout.length_toFloats x
  simp [PropertyTypeConverter.FloatArray, List.take_of_length_le, h]

theorem FloatArray_Unbox_toFloats (F : Type) {T : Type} {N : Nat} [FloatLayout F N T] (x : T) :
    (PropertyTypeConverter.FloatArray N T).Unbox
        (.SingleArray (FloatLayout.toFloats x : List F)) = .ok x := by
  have h : (FloatLayout.toFloats x : List F).length = N := FloatLayout.length_toFloats x
  simp [PropertyTypeConverter.FloatArray, PropertyValue.GetSingleArray, h,
    FloatLayout.ofFloats_toFloats]

theorem FloatArray_roundTrip_eq (F : Type) {T : Type} {N : Nat} [FloatLayout F N T] (x : T) :
    (PropertyTypeConverter.FloatArray N T : PropertyTypeConverter F T).unboxBox x = .ok x := by
  unfold PropertyTypeConverter.unboxBox
  rw [FloatArray_Box_eq F x]
  exact FloatArray_Unbox_toFloats F x

/-- C4: for each of `Vector2`, `Vector3`, `Vector4`, `Matrix3x2`, `Matrix4x4`
and `Matrix5x4`, with `N` = 2, 3, 4, 6, 16 and 20 floats, and every value `x`:
`Box` through the `float[N]` converter yields the float array of the `N`
elements of `x` in order, `Unbox` of that array succeeds with `x`, and so
`Unbox(Box(x))` is `x`. -/
theorem FloatArray_unboxBox {F : Type} :
    (∀ x : Vector2 F,
        (PropertyTypeConverter.FloatArray 2 (Vector2 F)).Box x = .ok (.SingleArray [
            x.X, x.Y])
        ∧ (PropertyTypeConverter.FloatArray 2 (Vector2 F)).Unbox (.SingleArray [
            x.X, x.Y]) = .ok x
        ∧ (PropertyTypeConverter.FloatArray 2 (Vector2 F) : PropertyTypeConverter F (Vector2 F)).unboxBox x
            = .ok x)
    ∧ (∀ x : Vector3 F,
        (PropertyTypeConverter.FloatArray 3 (Vector3 F)).Box x = .ok (.SingleArray [
            x.X, x.Y, x.Z])
        ∧ (PropertyTypeConverter.FloatArray 3 (Vector3 F)).Unbox (.SingleArray [
            x.X, x.Y, x.Z]) = .ok x
        ∧ (PropertyTypeConverter.FloatArray 3 (Vector3 F) : PropertyTypeConverter F (Vector3 F)).unboxBox x
            = .ok x)
    ∧ (∀ x : Vector4 F,
        (PropertyTypeConverter.FloatArray 4 (Vector4 F)).Box x = .ok (.SingleArray [
            x.X, x.Y, x.Z, x.W])
        ∧ (PropertyTypeConverter.FloatArray 4 (Vector4 F)).Unbox (.SingleArray [
            x.X, x.Y, x.Z, x.W]) = .ok x
        ∧ (PropertyTypeConverter.FloatArray 4 (Vector4 F) : PropertyTypeConverter F (Vector4 F)).unboxBox x
            = .ok x)
    ∧ (∀ x : Matrix3x2 F,
        (PropertyTypeConverter.FloatArray 6 (Matrix3x2 F)).Box x = .ok (.SingleArray [
            x.M11, x.M12, x.M21, x.M22, x.M31, x.M32])
        ∧ (PropertyTypeConverter.FloatArray 6 (Matrix3x2 F)).Unbox (.SingleArray [
            x.M11, x.M12, x.M21, x.M22, x.M31, x.M32]) = .ok x
        ∧ (PropertyTypeConverter.FloatArray 6 (Matrix3x2 F) : PropertyTypeConverter F (Matrix3x2 F)).unboxBox x
            = .ok x)
    ∧ (∀ x : Matrix4x4 F,
        (PropertyTypeConverter.FloatArray 16 (Matrix4x4 F)).Box x = .ok (.SingleArray [
            x.M11, x.M12, x.M13, x.M14, x.M21, x.M22, x.M23, x.M24, x.M31, x.M32, x.M33, x.M34,
            x.M41, x.M42, x.M43, x.M44])
        ∧ (PropertyTypeConverter.FloatArray 16 (Matrix4x4 F)).Unbox (.SingleArray [
            x.M11, x.M12, x.M13, x.M14, x.M21, x.M22, x.M23, x.M24, x.M31, x.M32, x.M33, x.M34,
            x.M41, x.M42, x.M43, x.M44]) = .ok x
        ∧ (PropertyTypeConverter.FloatArray 16 (Matrix4x4 F) : PropertyTypeConverter F (Matrix4x4 F)).unboxBox x
            = .ok x)
    ∧ (∀ x : Matrix5x4 F,
        (PropertyTypeConverter.FloatArray 20 (Matrix5x4 F)).Box x = .ok (.SingleArray [
            x.M11, x.M12, x.M13, x.M14, x.M21, x.M22, x.M23, x.M24, x.M31, x.M32, x.M33, x.M34,
            x.M41, x.M42, x.M43, x.M44, x.M51, x.M52, x.M53, x.M54])
        ∧ (PropertyTypeConverter.FloatArray 20 (Matrix5x4 F)).Unbox (.SingleArray [
            x.M11, x.M12, x.M13, x.M14, x.M21, x.M22, x.M23, x.M24, x.M31, x.M32, x.M33, x.M34,
            x.M41, x.M42, x.M43, x.M44, x.M51, x.M52, x.M53, x.M54]) = .ok x
        ∧ (PropertyTypeConverter.FloatArray 20 (Matrix5x4 F) : PropertyTypeConverter F (Matrix5x4 F)).unboxBox x
            = .ok x) := by
  refine ⟨?_, ?_, ?_, ?_, ?_, ?_⟩ <;> intro x <;>
    exact ⟨FloatArray_Box_eq F x, FloatArray_Unbox_toFloats F x, FloatArray_roundTrip_eq F x⟩

/-- C5: for an enum value `e` (in the range of its 32-bit underlying type),
`Box` through the enum converter stores the `UInt32` that is the numeric cast
of `e`: a value below `2^32` that is `e` itself when `e` is not negative.
`Unbox` of a stored `UInt32` `u` returns the enum value whose numeric cast is
`u`.  Hence `Unbox(Box(e))` is `e` and `Box(Unbox(u))` is `u`. -/
theorem Enum_box_unbox {F : Type} (e : Int) (u : Nat) (he : InInt32Range e) (hu : u < 2 ^ 32) :
    (PropertyTypeConverter.Enum : PropertyTypeConverter F Int).Box e
        = .ok (.UInt32 (static_cast_uint32 e))
    ∧ static_cast_uint32 e < 2 ^ 32
    ∧ (0 ≤ e → (static_cast_uint32 e : Int) = e)
    ∧ (PropertyTypeConverter.Enum : PropertyTypeConverter F Int).Unbox (.UInt32 u)
        = .ok (static_cast_enum u)
    ∧ InInt32Range (static_cast_enum u)
    ∧ static_cast_uint32 (static_cast_enum u) = u
    ∧ (PropertyTypeConverter.Enum : PropertyTypeConverter F Int).unboxBox e = .ok e
    ∧ (PropertyTypeConverter.Enum : PropertyTypeConverter F Int).boxUnbox (.UInt32 u)
        = .ok (.UInt32 u) := by
  have hback := static_cast_uint32_enum u hu
  have hforth := static_cast_enum_uint32 e he
  refine ⟨rfl, static_cast_uint32_lt e, ?_, rfl, ?_, hback, ?_, ?_⟩
  · intro h0
    exact static_cast_uint32_of_nonneg e h0 he.2
  · unfold InInt32Range static_cast_enum
    split <;> omega
  · simp [PropertyTypeConverter.unboxBox, PropertyTypeConverter.Enum, CreateProperty.UInt32,
      GetValueOfProperty.UInt32, PropertyValue.GetUInt32, hforth]
  · simp [PropertyTypeConverter.boxUnbox, PropertyTypeConverter.Enum, CreateProperty.UInt32,
      GetValueOfProperty.UInt32, PropertyValue.GetUInt32, hback]

/-- The statement of C5 at the enum value 2 and at the stored value 1. -/
theorem Enum_box_unbox_witness :
    InInt32Range 2 ∧ (1 : Nat) < 2 ^ 32
    ∧ (PropertyTypeConverter.Enum : PropertyTypeConverter ℚ Int).Box 2 = .ok (.UInt32 2)
    ∧ (PropertyTypeConverter.Enum : PropertyTypeConverter ℚ Int).Unbox (.UInt32 1) = .ok 1
    ∧ (PropertyTypeConverter.Enum : PropertyTypeConverter ℚ Int).unboxBox 2 = .ok 2
    ∧ (PropertyTypeConverter.Enum : PropertyTypeConverter ℚ Int).boxUnbox (.UInt32 1)
        = .ok (.UInt32 1) :=
  ⟨by decide, by decide, rfl, rfl,
   (Enum_box_unbox 2 1 (by decide) (by decide)).2.2.2.2.2.2.1,
   (Enum_box_unbox 2 1 (by decide) (by decide)).2.2.2.2.2.2.2⟩

/-! ### Helper lemmas on the property store and on colour channels -/

theorem SetBoxedProperty_ok_iff {F TPublic : Type} (effect : CanvasEffect F)
    (converter : PropertyTypeConverter F TPublic) (index : Nat)
    (h : index < effect.m_properties.length) (value : TPublic) :
    (effect.SetBoxedProperty converter index h value).1 = .ok () →
      ∃ boxed, converter.Box value = .ok boxed
        ∧ (effect.SetBoxedProperty converter index h value).2
            = { effect with
                m_properties := effect.m_properties.set index boxed
                m_propertiesChanged := true } := by
  unfold CanvasEffect.SetBoxedProperty
  cases hbox : converter.Box value with
  | error hr => simp
  | ok boxed => simp

theorem SetBoxedProperty_flag_mono {F TPublic : Type} (effect : CanvasEffect F)
    (converter : PropertyTypeConverter F TPublic) (index : Nat)
    (h : index < effect.m_properties.length) (value : TPublic) :
    effect.m_propertiesChanged = true →
      (effect.SetBoxedProperty converter index h value).2.m_propertiesChanged = true := by
  intro hflag
  unfold CanvasEffect.SetBoxedProperty
  cases converter.Box value with
  | error hr => simpa using hflag
  | ok boxed => simp

theorem NormalizedToUint8_ToNormalizedFloat {F : Type} [LinearOrderedField F] [FloorRing F]
    (v : Nat) (hv : v < 256) : NormalizedToUint8 (ToNormalizedFloat v : F) = v := by
  unfold NormalizedToUint8 ToNormalizedFloat
  have h0 : (0 : F) ≤ (v : F) / 255 := by positivity
  have h1 : (v : F) / 255 ≤ 1 := by
    rw [div_le_one (by norm_num)]
    have : v ≤ 255 := by omega
    exact_mod_cast this
  rw [min_eq_right h1, max_eq_right h0]
  have hmul : (v : F) / 255 * 255 = ((v : ℤ) : F) := by
    field_simp
  rw [hmul, round_intCast]
  simp
  omega

theorem NormalizedToUint8_one {F : Type} [LinearOrderedField F] [FloorRing F] :
    NormalizedToUint8 (1 : F) = 255 := by
  have h := (NormalizedToUint8_ToNormalizedFloat 255 (by norm_num) :
    NormalizedToUint8 (ToNormalizedFloat 255 : F) = 255)
  have h1 : (ToNormalizedFloat 255 : F) = 1 := by
    unfold ToNormalizedFloat
    norm_num
  rw [h1] at h
  exact h

/-- C6, as the code has it: at index 0 of `exampleEffect`, where an array of
three floats is stored, the generated array setter called with two elements
returns `S_OK`, not `E_BOUNDS`, replaces the stored array and sets the
properties-changed flag. -/
theorem SetArrayProperty_wrong_count_accepted :
    exampleEffect.m_properties.get ⟨0, by decide⟩ = .SingleArray [1, 2, 3]
    ∧ IMPLEMENT_EFFECT_ARRAY_PROPERTY.put exampleEffect 0 (by decide) 2 [5, 6]
        = (.S_OK, { exampleEffect with
            m_properties := [.SingleArray [5, 6], .Single 5, .UInt32 1]
            m_propertiesChanged := true })
    ∧ (IMPLEMENT_EFFECT_ARRAY_PROPERTY.put exampleEffect 0 (by decide) 2 [5, 6]).1 ≠ .E_BOUNDS
    ∧ (IMPLEMENT_EFFECT_ARRAY_PROPERTY.put exampleEffect 0 (by decide) 2 [5, 6]).2.m_properties[0]?
        ≠ exampleEffect.m_properties[0]?
    ∧ (IMPLEMENT_EFFECT_ARRAY_PROPERTY.put exampleEffect 0 (by decide) 2 [5, 6]).2.m_propertiesChanged
        ≠ exampleEffect.m_propertiesChanged := by
  refine ⟨rfl, rfl, ?_, ?_, ?_⟩
  · decide
  · decide
  · decide

/-- C6, amended: the array setter has no expected element count.  For every
effect, valid index, `valueCount` and buffer of at least `valueCount` elements
it returns `S_OK`, the value stored at the index becomes the array of the first
`valueCount` elements of the buffer, the flag is set and the values at the
other indices are unchanged. -/
theorem SetArrayProperty_accepts_every_count {F : Type} (effect : CanvasEffect F) (INDEX : Nat)
    (h : INDEX < effect.m_properties.length) (valueCount : Nat) (valueElements : List F)
    (hbuffer : valueCount ≤ valueElements.length) :
    IMPLEMENT_EFFECT_ARRAY_PROPERTY.put effect INDEX h valueCount valueElements
        = (.S_OK, { effect with
            m_properties := effect.m_properties.set INDEX (.SingleArray (valueElements.take valueCount))
            m_propertiesChanged := true })
    ∧ (IMPLEMENT_EFFECT_ARRAY_PROPERTY.put effect INDEX h valueCount valueElements).2.m_properties[INDEX]?
        = some (.SingleArray (valueElements.take valueCount))
    ∧ (valueElements.take valueCount).length = valueCount
    ∧ (∀ j, j ≠ INDEX →
        (IMPLEMENT_EFFECT_ARRAY_PROPERTY.put effect INDEX h valueCount valueElements).2.m_properties[j]?
          = effect.m_properties[j]?) := by
  refine ⟨rfl, ?_, ?_, ?_⟩
  · simp [IMPLEMENT_EFFECT_ARRAY_PROPERTY.put, CanvasEffect.SetArrayProperty,
      CreateProperty.SingleArray, ExceptionBoundary, h]
  · simp [hbuffer]
  · intro j hj
    simp [IMPLEMENT_EFFECT_ARRAY_PROPERTY.put, CanvasEffect.SetArrayProperty,
      CreateProperty.SingleArray, ExceptionBoundary, List.getElem?_set, Ne.symm hj]

/-- The amended statement of C6 at `exampleEffect`, index 0 and the two
elements 5 and 6. -/
theorem SetArrayProperty_accepts_every_count_witness :
    0 < exampleEffect.m_properties.length ∧ 2 ≤ [(5 : ℚ), 6].length
    ∧ (IMPLEMENT_EFFECT_ARRAY_PROPERTY.put exampleEffect 0 (by decide) 2 [5, 6]).1 = .S_OK
    ∧ (IMPLEMENT_EFFECT_ARRAY_PROPERTY.put exampleEffect 0 (by decide) 2 [5, 6]).2.m_properties[0]?
        = some (.SingleArray [5, 6]) :=
  ⟨by decide, by decide,
   congrArg Prod.fst
     (SetArrayProperty_accepts_every_count exampleEffect 0 (by decide) 2 [5, 6] (by decide)).1,
   (SetArrayProperty_accepts_every_count exampleEffect 0 (by decide) 2 [5, 6] (by decide)).2.1⟩

/-- C7: after a successful `SetBoxedProperty`, with any converter, or
`SetArrayProperty` (either overload) at a valid index the properties-changed
flag is true, whatever it was; and when the flag is true before a property set
or get operation, successful or not, it is true after it. -/
theorem propertiesChanged_after_write {F TPublic : Type} (effect : CanvasEffect F)
    (converter : PropertyTypeConverter F TPublic) (index : Nat)
    (h : index < effect.m_properties.length) (value : TPublic) (valuePointer : Option TPublic)
    (valueCount : Nat) (valueElements : List F) (countPointer : Option Nat)
    (elementsPointer : Option (List F)) :
    ((effect.SetBoxedProperty converter index h value).1 = .ok () →
        (effect.SetBoxedProperty converter index h value).2.m_propertiesChanged = true)
    ∧ ((effect.SetArrayProperty index h valueCount valueElements).1 = .ok () →
        (effect.SetArrayProperty index h valueCount valueElements).2.m_propertiesChanged = true)
    ∧ ((effect.SetArrayPropertyList index h valueElements).1 = .ok () →
        (effect.SetArrayPropertyList index h valueElements).2.m_propertiesChanged = true)
    ∧ (effect.m_propertiesChanged = true →
        (effect.SetBoxedProperty converter index h value).2.m_propertiesChanged = true
        ∧ (effect.SetArrayProperty index h valueCount valueElements).2.m_propertiesChanged = true
        ∧ (effect.SetArrayPropertyList index h valueElements).2.m_propertiesChanged = true
        ∧ (effect.GetBoxedProperty converter index h valuePointer).2.m_propertiesChanged = true
        ∧ (effect.GetArrayProperty index h countPointer elementsPointer).2.m_propertiesChanged
            = true) := by
  refine ⟨?_, ?_, ?_, ?_⟩
  · intro hok
    obtain ⟨boxed, _, hstate⟩ := SetBoxedProperty_ok_iff effect converter index h value hok
    rw [hstate]
  · intro _
    rfl
  · intro _
    rfl
  · intro hflag
    refine ⟨SetBoxedProperty_flag_mono effect converter index h value hflag, rfl, rfl, ?_, ?_⟩
    · unfold CanvasEffect.GetBoxedProperty
      cases CheckInPointer valuePointer <;> simpa using hflag
    · unfold CanvasEffect.GetArrayProperty
      cases CheckInPointer countPointer with
      | error hr => simpa using hflag
      | ok u =>
        cases CheckAndClearOutPointer elementsPointer <;> simpa using hflag

/-- The statement of C7 at index 1 of `exampleEffect`, whose flag is false,
and of `exampleDirtyEffect`, whose flag is true. -/
theorem propertiesChanged_after_write_witness :
    1 < exampleEffect.m_properties.length
    ∧ exampleEffect.m_propertiesChanged = false
    ∧ (exampleEffect.SetBoxedProperty PropertyTypeConverter.Single 1 (by decide)
        9).2.m_propertiesChanged = true
    ∧ exampleDirtyEffect.m_propertiesChanged = true
    ∧ (exampleDirtyEffect.GetBoxedProperty PropertyTypeConverter.Single 1 (by decide)
        none).2.m_propertiesChanged = true :=
  ⟨by decide, rfl,
   (propertiesChanged_after_write exampleEffect PropertyTypeConverter.Single 1 (by decide) 9
      none 0 [] none none).1 rfl,
   rfl,
   ((propertiesChanged_after_write exampleDirtyEffect PropertyTypeConverter.Single 1 (by decide) 9
      none 0 [] none none).2.2.2 rfl).2.2.2.1⟩

/-- C8, as the code has it: `SetArrayProperty` at index 0 of `exampleEffect`
with two elements succeeds, and the tag of the stored value changes from a
float array of three elements to a float array of two. -/
theorem SetArrayProperty_changes_element_count :
    (exampleEffect.SetArrayProperty 0 (by decide) 2 [5, 6]).1 = .ok ()
    ∧ exampleEffect.m_properties[0]?.map PropertyValue.type = some (.SingleArray 3)
    ∧ (exampleEffect.SetArrayProperty 0 (by decide) 2 [5, 6]).2.m_properties[0]?.map
        PropertyValue.type = some (.SingleArray 2) := by
  refine ⟨rfl, ?_, ?_⟩ <;> decide

/-- C8, amended: the tag stored by a successful write is fixed by the
converter, not by the previous value.  Each converter of `CanvasEffect.h` boxes
with one tag whatever the value; a successful `SetBoxedProperty` leaves that
tag at the index, so the tag is unchanged when the previous value had been
written through the same converter; a successful `SetArrayProperty` leaves a
float array whose element count is the `valueCount` of the call. -/
theorem write_stores_converter_tag :
    (∀ F : Type,
        (PropertyTypeConverter.Single : PropertyTypeConverter F F).BoxesAs .Single
        ∧ (PropertyTypeConverter.Int32 : PropertyTypeConverter F Int).BoxesAs .Int32
        ∧ (PropertyTypeConverter.UInt32 : PropertyTypeConverter F Nat).BoxesAs .UInt32
        ∧ (PropertyTypeConverter.Boolean : PropertyTypeConverter F Bool).BoxesAs .Boolean
        ∧ (PropertyTypeConverter.Enum : PropertyTypeConverter F Int).BoxesAs .UInt32
        ∧ (∀ ToD2DAlphaMode FromD2DAlphaMode,
            (PropertyTypeConverter.ConvertAlphaMode ToD2DAlphaMode FromD2DAlphaMode :
              PropertyTypeConverter F CanvasAlphaMode).BoxesAs .UInt32))
    ∧ (∀ (F T : Type) (N : Nat) [FloatLayout F N T],
        (PropertyTypeConverter.FloatArray N T : PropertyTypeConverter F T).BoxesAs
          (.SingleArray N))
    ∧ (∀ (F : Type) [LinearOrderedField F] [FloorRing F],
        (PropertyTypeConverter.Color4 : PropertyTypeConverter F Color).BoxesAs (.SingleArray 4)
        ∧ (PropertyTypeConverter.Color3 : PropertyTypeConverter F Color).BoxesAs (.SingleArray 3))
    ∧ (∀ (F : Type) [Add F] [Sub F],
        (PropertyTypeConverter.Rect : PropertyTypeConverter F (Rect F)).BoxesAs (.SingleArray 4))
    ∧ (∀ (F TPublic : Type) (effect : CanvasEffect F) (converter : PropertyTypeConverter F TPublic)
        (type : PropertyType) (index : Nat) (h : index < effect.m_properties.length)
        (value : TPublic),
        converter.BoxesAs type →
        (effect.SetBoxedProperty converter index h value).1 = .ok () →
        (effect.SetBoxedProperty converter index h value).2.m_properties[index]?.map
          PropertyValue.type = some type)
    ∧ (∀ (F : Type) (effect : CanvasEffect F) (index : Nat)
        (h : index < effect.m_properties.length) (valueCount : Nat) (value : List F),
        valueCount ≤ value.length →
        (effect.SetArrayProperty index h valueCount value).1 = .ok ()
        ∧ (effect.SetArrayProperty index h valueCount value).2.m_properties[index]?.map
            PropertyValue.type = some (.SingleArray valueCount)) := by
  refine ⟨?_, ?_, ?_, ?_, ?_, ?_⟩
  · intro F
    refine ⟨?_, ?_, ?_, ?_, ?_, ?_⟩
    · intro value boxed hbox
      cases hbox
      rfl
    · intro value boxed hbox
      cases hbox
      rfl
    · intro value boxed hbox
      cases hbox
      rfl
    · intro value boxed hbox
      cases hbox
      rfl
    · intro value boxed hbox
      cases hbox
      rfl
    · intro ToD2DAlphaMode FromD2DAlphaMode value boxed hbox
      simp only [PropertyTypeConverter.ConvertAlphaMode] at hbox
      split at hbox
      · cases hbox
      · split at hbox
        · cases hbox
        · cases hbox
          rfl
  · intro F T N _ value boxed hbox
    rw [FloatArray_Box_eq F value] at hbox
    cases hbox
    have hlen : (FloatLayout.toFloats value : List F).length = N :=
      FloatLayout.length_toFloats value
    simp [PropertyValue.type, hlen]
  · intro F _ _
    constructor
    · intro value boxed hbox
      cases hbox
      rfl
    · intro value boxed hbox
      cases hbox
      rfl
  · intro F _ _ value boxed hbox
    cases hbox
    rfl
  · intro F TPublic effect converter type index h value htype hok
    obtain ⟨boxed, hbox, hstate⟩ := SetBoxedProperty_ok_iff effect converter index h value hok
    rw [hstate]
    simp [h, htype value boxed hbox]
  · intro F effect index h valueCount value hbuffer
    refine ⟨rfl, ?_⟩
    simp [CanvasEffect.SetArrayProperty, CreateProperty.SingleArray, PropertyValue.type, h,
      hbuffer]

/-- C9: `Box` through the `Rect` converter of the rectangle `(x, y, width,
height)` yields the float array `[x, y, x + width, y + height]`; `Unbox` of the
array `[left, top, right, bottom]` yields the rectangle `(left, top,
right - left, bottom - top)`; and in exact arithmetic (the floats form a
commutative group under addition) `Unbox(Box(r))` is `r`. -/
theorem Rect_box_unbox {F : Type} [AddCommGroup F] (rect : Rect F) (left top right bottom : F) :
    (PropertyTypeConverter.Rect : PropertyTypeConverter F (Rect F)).Box rect
        = .ok (.SingleArray [rect.X, rect.Y, rect.X + rect.Width, rect.Y + rect.Height])
    ∧ (PropertyTypeConverter.Rect : PropertyTypeConverter F (Rect F)).Unbox
          (.SingleArray [left, top, right, bottom])
        = .ok { X := left, Y := top, Width := right - left, Height := bottom - top }
    ∧ (PropertyTypeConverter.Rect : PropertyTypeConverter F (Rect F)).unboxBox rect = .ok rect := by
  refine ⟨rfl, rfl, ?_⟩
  cases rect with
  | mk X Y Width Height =>
    show (Except.ok (FromD2DRect (Vector4.asD2DRect _)) : Except HResult (Rect F)) = _
    simp [FromD2DRect, Vector4.asD2DRect, FloatLayout.ofFloats, ToD2DRect, D2D1_RECT_F.asVector4, FloatLayout.toFloats]

/-- C10: for a colour `c` (every channel a byte), `Box` through the `float[3]`
converter yields an array of the three floats of red, green and blue, without
the alpha, and `Box` through the `float[4]` converter an array of four floats.
`Unbox` through `float[3]` of the boxed colour has the red, green and blue of
`c` and the alpha 255, so `Unbox(Box(c))` is `c` through `float[3]` exactly
when the alpha of `c` is 255; through `float[4]` it is `c`. -/
theorem Color_box_unbox {F : Type} [LinearOrderedField F] [FloorRing F] (color : Color)
    (hcolor : color.WellFormed) :
    (PropertyTypeConverter.Color3 : PropertyTypeConverter F Color).Box color
        = .ok (.SingleArray [ToNormalizedFloat color.R, ToNormalizedFloat color.G,
            ToNormalizedFloat color.B])
    ∧ (PropertyTypeConverter.Color4 : PropertyTypeConverter F Color).Box color
        = .ok (.SingleArray [ToNormalizedFloat color.R, ToNormalizedFloat color.G,
            ToNormalizedFloat color.B, ToNormalizedFloat color.A])
    ∧ (PropertyTypeConverter.Color3 : PropertyTypeConverter F Color).unboxBox color
        = .ok { A := 255, R := color.R, G := color.G, B := color.B }
    ∧ ((PropertyTypeConverter.Color3 : PropertyTypeConverter F Color).unboxBox color = .ok color
        ↔ color.A = 255)
    ∧ (PropertyTypeConverter.Color4 : PropertyTypeConverter F Color).unboxBox color
        = .ok color := by
  obtain ⟨hA, hR, hG, hB⟩ := hcolor
  have h3 : (PropertyTypeConverter.Color3 : PropertyTypeConverter F Color).unboxBox color
      = .ok { A := 255, R := color.R, G := color.G, B := color.B } := by
    show (Except.ok (ToWindowsColor.Vector3 _) : Except HResult Color) = _
    simp [ToWindowsColor.Vector3, ToWindowsColor.Vector4, FloatLayout.ofFloats, ToVector3,
      FloatLayout.toFloats, NormalizedToUint8_ToNormalizedFloat, NormalizedToUint8_one, hR, hG, hB]
  refine ⟨rfl, rfl, h3, ?_, ?_⟩
  · rw [h3]
    cases color with
    | mk A R G B =>
      simp
      exact eq_comm
  · show (Except.ok (ToWindowsColor.Vector4 _) : Except HResult Color) = _
    cases color with
    | mk A R G B =>
      simp at hA hR hG hB
      simp [ToWindowsColor.Vector4, FloatLayout.ofFloats, ToVector4,
        FloatLayout.toFloats, NormalizedToUint8_ToNormalizedFloat, hA, hR, hG, hB]

/-- The statement of C10 at the half-transparent colour (128, 10, 20, 30). -/
theorem Color_box_unbox_witness :
    Color.WellFormed { A := 128, R := 10, G := 20, B := 30 }
    ∧ (PropertyTypeConverter.Color3 : PropertyTypeConverter ℚ Color).unboxBox
        { A := 128, R := 10, G := 20, B := 30 } = .ok { A := 255, R := 10, G := 20, B := 30 }
    ∧ (PropertyTypeConverter.Color4 : PropertyTypeConverter ℚ Color).unboxBox
        { A := 128, R := 10, G := 20, B := 30 } = .ok { A := 128, R := 10, G := 20, B := 30 } :=
  ⟨by decide,
   (Color_box_unbox { A := 128, R := 10, G := 20, B := 30 } (by decide)).2.2.1,
   (Color_box_unbox { A := 128, R := 10, G := 20, B := 30 } (by decide)).2.2.2.2⟩

/-! ### Helper lemmas on what a property write leaves in place -/

theorem SetBoxedProperty_frame {F TPublic : Type} (effect : CanvasEffect F)
    (converter : PropertyTypeConverter F TPublic) (index : Nat)
    (h : index < effect.m_properties.length) (value : TPublic) :
    (effect.SetBoxedProperty converter index h value).2.m_properties.length
        = effect.m_properties.length
    ∧ ∀ j, j ≠ index →
        (effect.SetBoxedProperty converter index h value).2.m_properties[j]?
          = effect.m_properties[j]? := by
  unfold CanvasEffect.SetBoxedProperty
  cases converter.Box value with
  | error hr => simp
  | ok boxed =>
    refine ⟨by simp, ?_⟩
    intro j hj
    simp [List.getElem?_set, Ne.symm hj]

theorem SetArrayProperty_frame {F : Type} (effect : CanvasEffect F) (index : Nat)
    (h : index < effect.m_properties.length) (valueCount : Nat) (value : List F) :
    (effect.SetArrayProperty index h valueCount value).2.m_properties.length
        = effect.m_properties.length
    ∧ ∀ j, j ≠ index →
        (effect.SetArrayProperty index h valueCount value).2.m_properties[j]?
          = effect.m_properties[j]? := by
  refine ⟨by simp [CanvasEffect.SetArrayProperty, CreateProperty.SingleArray], ?_⟩
  intro j hj
  simp [CanvasEffect.SetArrayProperty, CreateProperty.SingleArray, List.getElem?_set, Ne.symm hj]

theorem GetBoxedProperty_after_set {F TPublic : Type} (effect : CanvasEffect F)
    (converter : PropertyTypeConverter F TPublic) (index : Nat)
    (h : index < effect.m_properties.length) (value previous : TPublic) (boxed : PropertyValue F)
    (hbox : converter.Box value = .ok boxed)
    (h2 : index < (effect.SetBoxedProperty converter index h value).2.m_properties.length) :
    ((effect.SetBoxedProperty converter index h value).2.GetBoxedProperty converter index h2
        (some previous)).1 = converter.Unbox boxed := by
  simp only [CanvasEffect.GetBoxedProperty, CheckInPointer]
  congr 1
  have : (effect.SetBoxedProperty converter index h value).2.m_properties
      = effect.m_properties.set index boxed := by
    simp [CanvasEffect.SetBoxedProperty, hbox]
  simp [this, List.get_eq_getElem]

theorem GetBoxedProperty_state {F TPublic : Type} (effect : CanvasEffect F)
    (converter : PropertyTypeConverter F TPublic) (index : Nat)
    (h : index < effect.m_properties.length) (value : Option TPublic) :
    (effect.GetBoxedProperty converter index h value).2 = effect := by
  unfold CanvasEffect.GetBoxedProperty
  cases CheckInPointer value <;> rfl

theorem GetArrayProperty_state {F : Type} (effect : CanvasEffect F) (index : Nat)
    (h : index < effect.m_properties.length) (valueCount : Option Nat)
    (value : Option (List F)) :
    (effect.GetArrayProperty index h valueCount value).2 = effect := by
  unfold CanvasEffect.GetArrayProperty
  cases CheckInPointer valueCount with
  | error hr => rfl
  | ok u => cases CheckAndClearOutPointer value <;> rfl

/-- C14: a property write at a valid index `i`, by `SetBoxedProperty` with any
converter or by `SetArrayProperty`, successful or not, leaves the number of
stored values as it was and leaves the value at every other index unchanged.
After a write through a default converter (`float`, `int32_t`, `uint32_t`,
`boolean`), which always succeeds, `GetBoxedProperty` at `i` with the same
converter yields the value written. -/
theorem property_write_frame {F : Type} (effect : CanvasEffect F) (index : Nat)
    (h : index < effect.m_properties.length) :
    (∀ (TPublic : Type) (converter : PropertyTypeConverter F TPublic) (value : TPublic),
        (effect.SetBoxedProperty converter index h value).2.m_properties.length
          = effect.m_properties.length
        ∧ ∀ j, j ≠ index →
            (effect.SetBoxedProperty converter index h value).2.m_properties[j]?
              = effect.m_properties[j]?)
    ∧ (∀ (valueCount : Nat) (value : List F),
        (effect.SetArrayProperty index h valueCount value).2.m_properties.length
          = effect.m_properties.length
        ∧ ∀ j, j ≠ index →
            (effect.SetArrayProperty index h valueCount value).2.m_properties[j]?
              = effect.m_properties[j]?)
    ∧ (∀ (value previous : F) h2,
        (effect.SetBoxedProperty PropertyTypeConverter.Single index h value).1 = .ok ()
        ∧ ((effect.SetBoxedProperty PropertyTypeConverter.Single index h value).2.GetBoxedProperty
            PropertyTypeConverter.Single index h2 (some previous)).1 = .ok value)
    ∧ (∀ (value previous : Int) h2,
        (effect.SetBoxedProperty PropertyTypeConverter.Int32 index h value).1 = .ok ()
        ∧ ((effect.SetBoxedProperty PropertyTypeConverter.Int32 index h value).2.GetBoxedProperty
            PropertyTypeConverter.Int32 index h2 (some previous)).1 = .ok value)
    ∧ (∀ (value previous : Nat) h2,
        (effect.SetBoxedProperty PropertyTypeConverter.UInt32 index h value).1 = .ok ()
        ∧ ((effect.SetBoxedProperty PropertyTypeConverter.UInt32 index h value).2.GetBoxedProperty
            PropertyTypeConverter.UInt32 index h2 (some previous)).1 = .ok value)
    ∧ (∀ (value previous : Bool) h2,
        (effect.SetBoxedProperty PropertyTypeConverter.Boolean index h value).1 = .ok ()
        ∧ ((effect.SetBoxedProperty PropertyTypeConverter.Boolean index h value).2.GetBoxedProperty
            PropertyTypeConverter.Boolean index h2 (some previous)).1 = .ok value) := by
  refine ⟨?_, ?_, ?_, ?_, ?_, ?_⟩
  · intro TPublic converter value
    exact SetBoxedProperty_frame effect converter index h value
  · intro valueCount value
    exact SetArrayProperty_frame effect index h valueCount value
  · intro value previous h2
    refine ⟨rfl, ?_⟩
    rw [GetBoxedProperty_after_set effect PropertyTypeConverter.Single index h value previous
      (.Single value) rfl h2]
    rfl
  · intro value previous h2
    refine ⟨rfl, ?_⟩
    rw [GetBoxedProperty_after_set effect PropertyTypeConverter.Int32 index h value previous
      (.Int32 value) rfl h2]
    rfl
  · intro value previous h2
    refine ⟨rfl, ?_⟩
    rw [GetBoxedProperty_after_set effect PropertyTypeConverter.UInt32 index h value previous
      (.UInt32 value) rfl h2]
    rfl
  · intro value previous h2
    refine ⟨rfl, ?_⟩
    rw [GetBoxedProperty_after_set effect PropertyTypeConverter.Boolean index h value previous
      (.Boolean value) rfl h2]
    rfl

/-- The statement of C14 at index 1 of `exampleEffect`: writing the float 9
keeps the three entries and the values at indices 0 and 2, and reading index 1
back yields 9. -/
theorem property_write_frame_witness :
    1 < exampleEffect.m_properties.length
    ∧ (exampleEffect.SetBoxedProperty PropertyTypeConverter.Single 1 (by decide)
        9).2.m_properties.length = 3
    ∧ (exampleEffect.SetBoxedProperty PropertyTypeConverter.Single 1 (by decide)
        9).2.m_properties[0]? = some (.SingleArray [1, 2, 3])
    ∧ ((exampleEffect.SetBoxedProperty PropertyTypeConverter.Single 1 (by decide)
        9).2.GetBoxedProperty PropertyTypeConverter.Single 1 (by decide) (some 0)).1 = .ok 9 :=
  ⟨by decide,
   ((property_write_frame exampleEffect 1 (by decide)).1 ℚ PropertyTypeConverter.Single 9).1,
   ((property_write_frame exampleEffect 1 (by decide)).1 ℚ PropertyTypeConverter.Single 9).2 0
      (by decide),
   ((property_write_frame exampleEffect 1 (by decide)).2.2.1 9 0 (by decide)).2⟩

/-- C15: `GetBoxedProperty`, with any converter, and `GetArrayProperty` at a
valid index leave the effect as it was, whether they succeed or throw.  A null
output pointer is rejected with `E_INVALIDARG`, and a stored array whose length
is not `N` is rejected with `E_BOUNDS` by the `float[N]` converter.  A second
read of the same index with the same arguments has the outcome of the first. -/
theorem property_reads_pure {F TPublic : Type} (effect : CanvasEffect F)
    (converter : PropertyTypeConverter F TPublic) (index : Nat)
    (h : index < effect.m_properties.length) (valuePointer : Option TPublic)
    (countPointer : Option Nat) (elementsPointer : Option (List F)) :
    (effect.GetBoxedProperty converter index h valuePointer).2 = effect
    ∧ (effect.GetArrayProperty index h countPointer elementsPointer).2 = effect
    ∧ effect.GetBoxedProperty converter index h none = (.error .E_INVALIDARG, effect)
    ∧ effect.GetArrayProperty index h none elementsPointer = (.error .E_INVALIDARG, effect)
    ∧ (countPointer ≠ none →
        effect.GetArrayProperty index h countPointer none = (.error .E_INVALIDARG, effect))
    ∧ (∀ (N : Nat) (T : Type) [FloatLayout F N T] (data : List F) (previous : T),
        effect.m_properties.get ⟨index, h⟩ = .SingleArray data → data.length ≠ N →
        effect.GetBoxedProperty (PropertyTypeConverter.FloatArray N T) index h (some previous)
          = (.error .E_BOUNDS, effect))
    ∧ (∀ h2,
        (effect.GetBoxedProperty converter index h valuePointer).2.GetBoxedProperty converter
            index h2 valuePointer
          = effect.GetBoxedProperty converter index h valuePointer)
    ∧ (∀ h2,
        (effect.GetArrayProperty index h countPointer elementsPointer).2.GetArrayProperty
            index h2 countPointer elementsPointer
          = effect.GetArrayProperty index h countPointer elementsPointer) := by
  have hboxed := GetBoxedProperty_state effect converter index h valuePointer
  have harray := GetArrayProperty_state effect index h countPointer elementsPointer
  refine ⟨hboxed, harray, rfl, rfl, ?_, ?_, ?_, ?_⟩
  · intro hcount
    cases countPointer with
    | none => exact absurd rfl hcount
    | some count => rfl
  · intro N T _ data previous hstored hlen
    simp only [CanvasEffect.GetBoxedProperty, CheckInPointer]
    rw [hstored]
    simp [PropertyTypeConverter.FloatArray, PropertyValue.GetSingleArray, hlen]
  · have key : ∀ other : CanvasEffect F, other = effect →
        ∀ h2 : index < other.m_properties.length,
          other.GetBoxedProperty converter index h2 valuePointer
            = effect.GetBoxedProperty converter index h valuePointer := by
      intro other hother
      subst hother
      intro h2
      rfl
    exact key _ hboxed
  · have key : ∀ other : CanvasEffect F, other = effect →
        ∀ h2 : index < other.m_properties.length,
          other.GetArrayProperty index h2 countPointer elementsPointer
            = effect.GetArrayProperty index h countPointer elementsPointer := by
      intro other hother
      subst hother
      intro h2
      rfl
    exact key _ harray

/-- The statement of C15 at `exampleEffect`: reading index 0, an array of three
floats, as a `Vector2` fails with `E_BOUNDS`, reading it through a null pointer
fails with `E_INVALIDARG`, and the effect is unchanged by either read. -/
theorem property_reads_pure_witness :
    0 < exampleEffect.m_properties.length
    ∧ exampleEffect.GetBoxedProperty (PropertyTypeConverter.FloatArray 2 (Vector2 ℚ)) 0
        (by decide) (some { X := 0, Y := 0 }) = (.error .E_BOUNDS, exampleEffect)
    ∧ exampleEffect.GetBoxedProperty (PropertyTypeConverter.FloatArray 2 (Vector2 ℚ)) 0
        (by decide) none = (.error .E_INVALIDARG, exampleEffect)
    ∧ (exampleEffect.GetArrayProperty 0 (by decide) (some 0) (some [])).2 = exampleEffect :=
  ⟨by decide,
   (property_reads_pure exampleEffect (PropertyTypeConverter.FloatArray 2 (Vector2 ℚ)) 0
      (by decide) none (some 0) (some [])).2.2.2.2.2.1 2 (Vector2 ℚ) [1, 2, 3]
      { X := 0, Y := 0 } rfl (by decide),
   (property_reads_pure exampleEffect (PropertyTypeConverter.FloatArray 2 (Vector2 ℚ)) 0
      (by decide) none (some 0) (some [])).2.2.1,
   (property_reads_pure exampleEffect (PropertyTypeConverter.FloatArray 2 (Vector2 ℚ)) 0
      (by decide) none (some 0) (some [])).2.1⟩

/-- C12: on a fixed-size source list of `n` entries `SetSource(i, ref)` with
`i >= n` fails with `E_BOUNDS`; on a variable-size list `SetSource(n, ref)`
succeeds and the count becomes `n + 1`, and `SetSource(i, ref)` with `i > n`
fails with `E_BOUNDS`.  An open effect whose source list rejects the index is
left as it was.  `LuminanceToAlphaEffect`, built with one fixed source, accepts
index 0 through `put_Source` and rejects every index from 1 on. -/
theorem SetSource_bounds :
    (∀ (list : SourceList) (i : Nat) (ref : Option Nat),
        list.isSourcesSizeFixed = true → list.GetCount ≤ i →
        list.SetSource i ref = .error .E_BOUNDS)
    ∧ (∀ (list : SourceList) (ref : Option Nat),
        list.isSourcesSizeFixed = false →
        list.SetSource list.GetCount ref
            = .ok { sources := list.sources ++ [ref], isSourcesSizeFixed := false }
        ∧ SourceList.GetCount { sources := list.sources ++ [ref], isSourcesSizeFixed := false }
            = list.GetCount + 1)
    ∧ (∀ (list : SourceList) (i : Nat) (ref : Option Nat),
        list.isSourcesSizeFixed = false → list.GetCount < i →
        list.SetSource i ref = .error .E_BOUNDS)
    ∧ (∀ (F : Type) (effect : CanvasEffect F) (i : Nat) (ref : Option Nat),
        effect.m_sources.SetSource i ref = .error .E_BOUNDS →
        effect.m_closed = false →
        effect.SetSource i ref = (.E_BOUNDS, effect))
    ∧ (∀ (F : Type) (effect : CanvasEffect F) (ref : Option Nat),
        effect.m_sources.isSourcesSizeFixed = false → effect.m_closed = false →
        (effect.SetSource effect.m_sources.GetCount ref).1 = .S_OK
        ∧ (effect.SetSource effect.m_sources.GetCount ref).2.m_sources.GetCount
            = effect.m_sources.GetCount + 1)
    ∧ (∀ (F : Type) (EffectId : Nat) (native ref : Option Nat),
        LuminanceToAlphaEffect.put_Source
            (LuminanceToAlphaEffect.create EffectId native : CanvasEffect F) ref
          = (.S_OK, { (LuminanceToAlphaEffect.create EffectId native : CanvasEffect F) with
              m_sources := { sources := [ref], isSourcesSizeFixed := true } })
        ∧ ∀ i, 1 ≤ i →
            (LuminanceToAlphaEffect.create EffectId native : CanvasEffect F).SetSource i ref
              = (.E_BOUNDS, LuminanceToAlphaEffect.create EffectId native)) := by
  refine ⟨?_, ?_, ?_, ?_, ?_, ?_⟩
  · intro list i ref hfixed hi
    simp only [SourceList.GetCount] at hi
    simp [SourceList.SetSource, hfixed, hi]
  · intro list ref hfixed
    refine ⟨?_, ?_⟩
    · cases list with
      | mk sources isFixed =>
        simp only at hfixed
        subst hfixed
        simp [SourceList.SetSource, SourceList.GetCount]
    · simp [SourceList.GetCount]
  · intro list i ref hfixed hi
    simp only [SourceList.GetCount] at hi
    have hne : i ≠ list.sources.length := by omega
    simp [SourceList.SetSource, hfixed, hi, hne]
  · intro F effect i ref hlist hopen
    simp [CanvasEffect.SetSource, hlist, hopen]
  · intro F effect ref hfixed hopen
    simp [CanvasEffect.SetSource, SourceList.SetSource, SourceList.GetCount, hfixed, hopen]
  · intro F EffectId native ref
    refine ⟨rfl, ?_⟩
    intro i hi
    simp [CanvasEffect.SetSource, SourceList.SetSource, LuminanceToAlphaEffect.create,
      CanvasEffect.create, hi]

/-- C11, as the code has it: in binary32 arithmetic `Box` of the angle 1.0
stores `15019744 * 2 ^ (-18)`, that is 57.29577637 degrees, and `Unbox` of the
boxed value yields `16777215 * 2 ^ (-24)`, that is 0.99999994, which is not
1.0. -/
theorem ConvertRadiansToDegrees_binary32_one :
    ((1 : Nat) : Binary32) = { negative := false, significand := 8388608, exponent := -23 }
    ∧ (PropertyTypeConverter.ConvertRadiansToDegrees Binary32.XM_PI).Box ((1 : Nat) : Binary32)
        = .ok (.Single { negative := false, significand := 15019744, exponent := -18 })
    ∧ (PropertyTypeConverter.ConvertRadiansToDegrees Binary32.XM_PI).unboxBox
          ((1 : Nat) : Binary32)
        = .ok { negative := false, significand := 16777215, exponent := -24 }
    ∧ (PropertyTypeConverter.ConvertRadiansToDegrees Binary32.XM_PI).unboxBox
          ((1 : Nat) : Binary32)
        ≠ .ok ((1 : Nat) : Binary32) := by
  have hround : (PropertyTypeConverter.ConvertRadiansToDegrees Binary32.XM_PI).unboxBox
      ((1 : Nat) : Binary32)
        = .ok { negative := false, significand := 16777215, exponent := -24 } := by rfl
  refine ⟨by rfl, by rfl, hround, ?_⟩
  rw [hround]
  intro h
  exact absurd (Except.ok.inj h) (by decide)

/-- C11, amended: `Box` through the `ConvertRadiansToDegrees` converter stores
`x * (180 / pi)` and `Unbox` of a stored scalar `d` returns `d * (pi / 180)`;
in exact arithmetic (a field of characteristic zero, with any constant other
than zero for pi) the two conversions are inverse, `Unbox(Box(x))` is `x`. -/
theorem ConvertRadiansToDegrees_exact {F : Type} [Field F] [CharZero F] (XM_PI x d : F)
    (hpi : XM_PI ≠ 0) :
    (PropertyTypeConverter.ConvertRadiansToDegrees XM_PI).Box x
        = .ok (.Single (x * (180 / XM_PI)))
    ∧ (PropertyTypeConverter.ConvertRadiansToDegrees XM_PI).Unbox (.Single d)
        = .ok (d * (XM_PI / 180))
    ∧ (PropertyTypeConverter.ConvertRadiansToDegrees XM_PI).unboxBox x = .ok x
    ∧ (PropertyTypeConverter.ConvertRadiansToDegrees XM_PI).boxUnbox (.Single d)
        = .ok (.Single d) := by
  have h180 : (180 : F) ≠ 0 := by norm_num
  have hforth : x * (180 / XM_PI) * (XM_PI / 180) = x := by
    field_simp
  have hback : d * (XM_PI / 180) * (180 / XM_PI) = d := by
    field_simp
  refine ⟨?_, ?_, ?_, ?_⟩
  · simp [PropertyTypeConverter.ConvertRadiansToDegrees, CreateProperty.Single,
      XMConvertToDegrees]
  · simp [PropertyTypeConverter.ConvertRadiansToDegrees, GetValueOfProperty.Single,
      PropertyValue.GetSingle, XMConvertToRadians]
  · simp [PropertyTypeConverter.unboxBox, PropertyTypeConverter.ConvertRadiansToDegrees,
      CreateProperty.Single, GetValueOfProperty.Single, PropertyValue.GetSingle,
      XMConvertToDegrees, XMConvertToRadians, hforth]
  · simp [PropertyTypeConverter.boxUnbox, PropertyTypeConverter.ConvertRadiansToDegrees,
      CreateProperty.Single, GetValueOfProperty.Single, PropertyValue.GetSingle,
      XMConvertToDegrees, XMConvertToRadians, hback]

/-- The amended statement of C11 over the rationals, with 355/113 for pi, at
the angle 1/2 and the stored scalar 90. -/
theorem ConvertRadiansToDegrees_exact_witness :
    (355 / 113 : ℚ) ≠ 0
    ∧ (PropertyTypeConverter.ConvertRadiansToDegrees (355 / 113 : ℚ)).unboxBox (1 / 2)
        = .ok (1 / 2)
    ∧ (PropertyTypeConverter.ConvertRadiansToDegrees (355 / 113 : ℚ)).Unbox (.Single 90)
        = .ok (90 * (355 / 113 / 180)) :=
  ⟨by norm_num,
   (ConvertRadiansToDegrees_exact (355 / 113 : ℚ) (1 / 2) 90 (by norm_num)).2.2.1,
   (ConvertRadiansToDegrees_exact (355 / 113 : ℚ) (1 / 2) 90 (by norm_num)).2.1⟩

/-! ### Helper lemmas on single-precision arithmetic and on realization -/

theorem Binary32_known_values :
    ((1 : Nat) : Binary32) / ((3 : Nat) : Binary32)
        = { negative := false, significand := 11184811, exponent := -25 }
    ∧ ((1 : Nat) : Binary32) / ((10 : Nat) : Binary32)
        = { negative := false, significand := 13421773, exponent := -27 }
    ∧ ((180 : Nat) : Binary32) / Binary32.XM_PI
        = { negative := false, significand := 15019744, exponent := -18 }
    ∧ Binary32.XM_PI / ((180 : Nat) : Binary32)
        = { negative := false, significand := 9370165, exponent := -29 }
    ∧ ((3 : Nat) : Binary32) * (((1 : Nat) : Binary32) / ((3 : Nat) : Binary32))
        = ((1 : Nat) : Binary32) := by
  refine ⟨?_, ?_, ?_, ?_, ?_⟩ <;> decide

theorem rebuild_then_realize {F : Type} (effect : CanvasEffect F) (deviceIdentity : Nat)
    (sources1 sources2 : List RealizedEffectNode) (resource : Nat) (pre : List (D2DCall F))
    (created2 : Except HResult Nat) (hopen : effect.m_closed = false)
    (hsources : sources2.map RealizedEffectNode.realizationId
      = sources1.map RealizedEffectNode.realizationId) :
    (effect.rebuild deviceIdentity sources1 resource pre).effect.GetRealizedEffectNode
        deviceIdentity (.ok sources2) created2
      = { result := (effect.rebuild deviceIdentity sources1 resource pre).result
          effect := (effect.rebuild deviceIdentity sources1 resource pre).effect
          calls := [] } := by
  simp [CanvasEffect.GetRealizedEffectNode, CanvasEffect.rebuild, CanvasEffect.cachedResource,
    hopen, hsources]

/-- C13: when a realization of a node against a device succeeds and the node
is realized again against the same device, with nothing written in between and
the sources realizing to the same generation ids, the second call returns what
the first returned, the same native image and the same generation id, makes no
call on the backend (it neither creates, rebinds sources nor pushes
properties) and leaves the node as the first call left it. -/
theorem realize_twice {F : Type} (effect : CanvasEffect F) (deviceIdentity : Nat)
    (sources1 sources2 : List RealizedEffectNode) (created1 created2 : Except HResult Nat)
    (node : RealizedEffectNode)
    (hfirst : (effect.GetRealizedEffectNode deviceIdentity (.ok sources1) created1).result
      = .ok node)
    (hsources : sources2.map RealizedEffectNode.realizationId
      = sources1.map RealizedEffectNode.realizationId) :
    ((effect.GetRealizedEffectNode deviceIdentity (.ok sources1) created1).effect.GetRealizedEffectNode
        deviceIdentity (.ok sources2) created2).result = .ok node
    ∧ ((effect.GetRealizedEffectNode deviceIdentity (.ok sources1) created1).effect.GetRealizedEffectNode
        deviceIdentity (.ok sources2) created2).calls = []
    ∧ ((effect.GetRealizedEffectNode deviceIdentity (.ok sources1) created1).effect.GetRealizedEffectNode
        deviceIdentity (.ok sources2) created2).effect
        = (effect.GetRealizedEffectNode deviceIdentity (.ok sources1) created1).effect := by
  by_cases hclosed : effect.m_closed = true
  · simp [CanvasEffect.GetRealizedEffectNode, hclosed] at hfirst
  have hopen : effect.m_closed = false := by simpa using hclosed
  by_cases hinside : effect.m_insideGetImage = true
  · simp [CanvasEffect.GetRealizedEffectNode, hopen, hinside] at hfirst
  have hout : effect.m_insideGetImage = false := by simpa using hinside
  cases hcached : effect.cachedResource deviceIdentity with
  | none =>
    cases created1 with
    | error hr =>
      simp [CanvasEffect.GetRealizedEffectNode, hopen, hout, hcached] at hfirst
    | ok resource =>
      have hcall : effect.GetRealizedEffectNode deviceIdentity (.ok sources1) (.ok resource)
          = effect.rebuild deviceIdentity sources1 resource
              [.CreateEffect deviceIdentity effect.m_effectId] := by
        simp [CanvasEffect.GetRealizedEffectNode, hopen, hout, hcached]
      rw [hcall] at hfirst ⊢
      rw [rebuild_then_realize effect deviceIdentity sources1 sources2 resource _ created2 hopen
        hsources]
      exact ⟨hfirst, rfl, rfl⟩
  | some resource =>
    by_cases hsame : sources1.map RealizedEffectNode.realizationId
        = effect.m_previousSourceRealizationIds ∧ effect.m_propertiesChanged = false
    · have hcall : effect.GetRealizedEffectNode deviceIdentity (.ok sources1) created1
          = { result := .ok { image := resource, realizationId := effect.m_realizationId }
              effect := effect
              calls := [] } := by
        simp [CanvasEffect.GetRealizedEffectNode, hopen, hout, hcached, hsame]
      have hagain : effect.GetRealizedEffectNode deviceIdentity (.ok sources2) created2
          = { result := .ok { image := resource, realizationId := effect.m_realizationId }
              effect := effect
              calls := [] } := by
        simp [CanvasEffect.GetRealizedEffectNode, hopen, hout, hcached, hsources, hsame]
      rw [hcall] at hfirst ⊢
      simp only at hfirst ⊢
      rw [hagain]
      exact ⟨hfirst, rfl, rfl⟩
    · have hcall : effect.GetRealizedEffectNode deviceIdentity (.ok sources1) created1
          = effect.rebuild deviceIdentity sources1 resource [] := by
        simp only [CanvasEffect.GetRealizedEffectNode, hopen, hout, hcached]
        simp [hsame]
      rw [hcall] at hfirst ⊢
      rw [rebuild_then_realize effect deviceIdentity sources1 sources2 resource _ created2 hopen
        hsources]
      exact ⟨hfirst, rfl, rfl⟩

/-- The statement of C13 at `exampleEffect`, realized for the first time on
device 1 with one source of generation id 4: the first call yields generation
id 1 and the second call yields it again, with no call on the backend. -/
theorem realize_twice_witness :
    (exampleEffect.GetRealizedEffectNode 1 (.ok [{ image := 10, realizationId := 4 }])
        (.ok 100)).result = .ok { image := 100, realizationId := 1 }
    ∧ (exampleEffect.GetRealizedEffectNode 1 (.ok [{ image := 10, realizationId := 4 }])
        (.ok 100)).calls.length = 5
    ∧ ((exampleEffect.GetRealizedEffectNode 1 (.ok [{ image := 10, realizationId := 4 }])
        (.ok 100)).effect.GetRealizedEffectNode 1 (.ok [{ image := 10, realizationId := 4 }])
        (.error .E_INVALIDARG)).result = .ok { image := 100, realizationId := 1 }
    ∧ ((exampleEffect.GetRealizedEffectNode 1 (.ok [{ image := 10, realizationId := 4 }])
        (.ok 100)).effect.GetRealizedEffectNode 1 (.ok [{ image := 10, realizationId := 4 }])
        (.error .E_INVALIDARG)).calls = [] :=
  ⟨rfl, rfl,
   (realize_twice exampleEffect 1 [{ image := 10, realizationId := 4 }]
      [{ image := 10, realizationId := 4 }] (.ok 100) (.error .E_INVALIDARG)
      { image := 100, realizationId := 1 } rfl rfl).1,
   (realize_twice exampleEffect 1 [{ image := 10, realizationId := 4 }]
      [{ image := 10, realizationId := 4 }] (.ok 100) (.error .E_INVALIDARG)
      { image := 100, realizationId := 1 } rfl rfl).2.1⟩

end Win2D
